import Mathlib

/-!
Verification of the d2q9-bgk lattice Boltzmann implementation (src/4.c).

The embedding models the floating-point program over ℚ (exact arithmetic);
the C library function sqrtf is abstracted as an explicit function
parameter `sqrtf : ℚ → ℚ`.  Stateful grid loops are embedded as folds over
the row-major list of cells; pure accumulation loops (av_velocity,
total_density) as finite sums.
-/

namespace D2Q9

/-- Parameter struct `t_param` (src/4.c lines 64-73); the float members are
modelled over ℚ. -/
structure t_param where
  nx : ℕ
  ny : ℕ
  maxIters : ℕ
  reynolds_dim : ℕ
  density : ℚ
  accel : ℚ
  omega : ℚ

/-- The structure-of-arrays speed grid `t_speed` (src/4.c lines 76-87):
nine per-direction buffers, each indexed by the flattened index
`ii + jj * nx`. -/
@[ext]
structure t_speed where
  speeds0 : ℕ → ℚ
  speeds1 : ℕ → ℚ
  speeds2 : ℕ → ℚ
  speeds3 : ℕ → ℚ
  speeds4 : ℕ → ℚ
  speeds5 : ℕ → ℚ
  speeds6 : ℕ → ℚ
  speeds7 : ℕ → ℚ
  speeds8 : ℕ → ℚ

/-- `int y_s = (jj == 0) ? (jj + params.ny - 1) : (jj - 1);` (line 220). -/
def y_s (params : t_param) (jj : ℕ) : ℕ :=
  if jj = 0 then jj + params.ny - 1 else jj - 1

/-- `int y_n = (jj + 1) % params.ny;` (line 221). -/
def y_n (params : t_param) (jj : ℕ) : ℕ := (jj + 1) % params.ny

/-- `int x_e = (ii + 1) % params.nx;` (line 226). -/
def x_e (params : t_param) (ii : ℕ) : ℕ := (ii + 1) % params.nx

/-- `int x_w = (ii == 0) ? (ii + params.nx - 1) : (ii - 1);` (line 227). -/
def x_w (params : t_param) (ii : ℕ) : ℕ :=
  if ii = 0 then ii + params.nx - 1 else ii - 1

/-- `const float s0 = cells->speeds0[ii + jj * params.nx];` (line 232). -/
def pull0 (params : t_param) (cells : t_speed) (ii jj : ℕ) : ℚ :=
  cells.speeds0 (ii + jj * params.nx)

/-- `const float s1 = cells->speeds1[x_w + jj * params.nx];` (line 233). -/
def pull1 (params : t_param) (cells : t_speed) (ii jj : ℕ) : ℚ :=
  cells.speeds1 (x_w params ii + jj * params.nx)

/-- `const float s2 = cells->speeds2[ii + y_s * params.nx];` (line 234). -/
def pull2 (params : t_param) (cells : t_speed) (ii jj : ℕ) : ℚ :=
  cells.speeds2 (ii + y_s params jj * params.nx)

/-- `const float s3 = cells->speeds3[x_e + jj * params.nx];` (line 235). -/
def pull3 (params : t_param) (cells : t_speed) (ii jj : ℕ) : ℚ :=
  cells.speeds3 (x_e params ii + jj * params.nx)

/-- `const float s4 = cells->speeds4[ii + y_n * params.nx];` (line 236). -/
def pull4 (params : t_param) (cells : t_speed) (ii jj : ℕ) : ℚ :=
  cells.speeds4 (ii + y_n params jj * params.nx)

/-- `const float s5 = cells->speeds5[x_w + y_s * params.nx];` (line 237). -/
def pull5 (params : t_param) (cells : t_speed) (ii jj : ℕ) : ℚ :=
  cells.speeds5 (x_w params ii + y_s params jj * params.nx)

/-- `const float s6 = cells->speeds6[x_e + y_s * params.nx];` (line 238). -/
def pull6 (params : t_param) (cells : t_speed) (ii jj : ℕ) : ℚ :=
  cells.speeds6 (x_e params ii + y_s params jj * params.nx)

/-- `const float s7 = cells->speeds7[x_e + y_n * params.nx];` (line 239). -/
def pull7 (params : t_param) (cells : t_speed) (ii jj : ℕ) : ℚ :=
  cells.speeds7 (x_e params ii + y_n params jj * params.nx)

/-- `const float s8 = cells->speeds8[x_w + y_n * params.nx];` (line 240). -/
def pull8 (params : t_param) (cells : t_speed) (ii jj : ℕ) : ℚ :=
  cells.speeds8 (x_w params ii + y_n params jj * params.nx)

/-- `float local_density = s0 + s1 + ... + s8;` (line 261). -/
def local_density (params : t_param) (cells : t_speed) (ii jj : ℕ) : ℚ :=
  pull0 params cells ii jj + pull1 params cells ii jj + pull2 params cells ii jj +
  pull3 params cells ii jj + pull4 params cells ii jj + pull5 params cells ii jj +
  pull6 params cells ii jj + pull7 params cells ii jj + pull8 params cells ii jj

/-- `float u_x = (s1 + s5 + s8 - (s3 + s6 + s7)) / local_density;` (line 264).
In ℚ a division by zero yields 0 (the C float would yield inf or NaN). -/
def u_x (params : t_param) (cells : t_speed) (ii jj : ℕ) : ℚ :=
  (pull1 params cells ii jj + pull5 params cells ii jj + pull8 params cells ii jj -
    (pull3 params cells ii jj + pull6 params cells ii jj + pull7 params cells ii jj)) /
  local_density params cells ii jj

/-- `float u_y = (s2 + s5 + s6 - (s4 + s7 + s8)) / local_density;` (line 266). -/
def u_y (params : t_param) (cells : t_speed) (ii jj : ℕ) : ℚ :=
  (pull2 params cells ii jj + pull5 params cells ii jj + pull6 params cells ii jj -
    (pull4 params cells ii jj + pull7 params cells ii jj + pull8 params cells ii jj)) /
  local_density params cells ii jj

/-- `const float c_sq_inv = 3.f;` (line 207). -/
def c_sq_inv : ℚ := 3

/-- `const float w0 = 4.f / 9.f;` (line 208). -/
def w0 : ℚ := 4 / 9

/-- `const float w1 = 1.f / 9.f;` (line 209). -/
def w1 : ℚ := 1 / 9

/-- `const float w2 = 1.f / 36.f;` (line 210). -/
def w2 : ℚ := 1 / 36

/-- `d_equ0` (line 272) as a function of the local density and velocity
components; `u_sq = u_x*u_x + u_y*u_y` (line 269) is inlined. -/
def d_equ0 (ld ux uy : ℚ) : ℚ :=
  w0 * ld * (1 - (ux * ux + uy * uy) * (1 / 2 * c_sq_inv))

/-- `d_equ1` (line 273). -/
def d_equ1 (ld ux uy : ℚ) : ℚ :=
  w1 * ld * (1 + ux * c_sq_inv + (ux * ux) * (1 / 2 * c_sq_inv * c_sq_inv) -
    (ux * ux + uy * uy) * (1 / 2 * c_sq_inv))

/-- `d_equ2` (line 274). -/
def d_equ2 (ld ux uy : ℚ) : ℚ :=
  w1 * ld * (1 + uy * c_sq_inv + (uy * uy) * (1 / 2 * c_sq_inv * c_sq_inv) -
    (ux * ux + uy * uy) * (1 / 2 * c_sq_inv))

/-- `d_equ3` (line 275). -/
def d_equ3 (ld ux uy : ℚ) : ℚ :=
  w1 * ld * (1 + -ux * c_sq_inv + (ux * ux) * (1 / 2 * c_sq_inv * c_sq_inv) -
    (ux * ux + uy * uy) * (1 / 2 * c_sq_inv))

/-- `d_equ4` (line 276). -/
def d_equ4 (ld ux uy : ℚ) : ℚ :=
  w1 * ld * (1 + -uy * c_sq_inv + (uy * uy) * (1 / 2 * c_sq_inv * c_sq_inv) -
    (ux * ux + uy * uy) * (1 / 2 * c_sq_inv))

/-- `d_equ5` (line 277). -/
def d_equ5 (ld ux uy : ℚ) : ℚ :=
  w2 * ld * (1 + (ux + uy) * c_sq_inv + ((ux + uy) * (ux + uy)) * (1 / 2 * c_sq_inv * c_sq_inv) -
    (ux * ux + uy * uy) * (1 / 2 * c_sq_inv))

/-- `d_equ6` (line 278). -/
def d_equ6 (ld ux uy : ℚ) : ℚ :=
  w2 * ld * (1 + (-ux + uy) * c_sq_inv + ((-ux + uy) * (-ux + uy)) * (1 / 2 * c_sq_inv * c_sq_inv) -
    (ux * ux + uy * uy) * (1 / 2 * c_sq_inv))

/-- `d_equ7` (line 279). -/
def d_equ7 (ld ux uy : ℚ) : ℚ :=
  w2 * ld * (1 + (-ux - uy) * c_sq_inv + ((-ux - uy) * (-ux - uy)) * (1 / 2 * c_sq_inv * c_sq_inv) -
    (ux * ux + uy * uy) * (1 / 2 * c_sq_inv))

/-- `d_equ8` (line 280). -/
def d_equ8 (ld ux uy : ℚ) : ℚ :=
  w2 * ld * (1 + (ux - uy) * c_sq_inv + ((ux - uy) * (ux - uy)) * (1 / 2 * c_sq_inv * c_sq_inv) -
    (ux * ux + uy * uy) * (1 / 2 * c_sq_inv))

/-- The BGK relaxation `s_i + params.omega * (d_equ_i - s_i)` (lines 282-290). -/
def collide (omega f d : ℚ) : ℚ := f + omega * (d - f)

/-- One iteration of the fused stream/collide loop body (src/4.c lines
224-296) at cell `(ii, jj) = (cell.1, cell.2)`.  The state is the scratch
grid `tmp_cells` together with the accumulators `tot_u` and `tot_cells`.
The obstacle test of line 243 indexes `jj*nx + ii` while the fluid test of
line 258 indexes `ii + jj*nx`, exactly as in the source. -/
def streamCollideCell (params : t_param) (sqrtf : ℚ → ℚ) (cells : t_speed)
    (obstacles : ℕ → Bool) (st : t_speed × ℚ × ℕ) (cell : ℕ × ℕ) :
    t_speed × ℚ × ℕ :=
  let ii := cell.1
  let jj := cell.2
  let idx := ii + jj * params.nx
  let tmp1 : t_speed :=
    if obstacles (jj * params.nx + ii) = true then
      { st.1 with
        speeds1 := Function.update st.1.speeds1 idx (pull3 params cells ii jj)
        speeds2 := Function.update st.1.speeds2 idx (pull4 params cells ii jj)
        speeds3 := Function.update st.1.speeds3 idx (pull1 params cells ii jj)
        speeds4 := Function.update st.1.speeds4 idx (pull2 params cells ii jj)
        speeds5 := Function.update st.1.speeds5 idx (pull7 params cells ii jj)
        speeds6 := Function.update st.1.speeds6 idx (pull8 params cells ii jj)
        speeds7 := Function.update st.1.speeds7 idx (pull5 params cells ii jj)
        speeds8 := Function.update st.1.speeds8 idx (pull6 params cells ii jj) }
    else st.1
  if obstacles (ii + jj * params.nx) = false then
    let ld := local_density params cells ii jj
    let ux := u_x params cells ii jj
    let uy := u_y params cells ii jj
    ({ tmp1 with
        speeds0 := Function.update tmp1.speeds0 idx
          (collide params.omega (pull0 params cells ii jj) (d_equ0 ld ux uy))
        speeds1 := Function.update tmp1.speeds1 idx
          (collide params.omega (pull1 params cells ii jj) (d_equ1 ld ux uy))
        speeds2 := Function.update tmp1.speeds2 idx
          (collide params.omega (pull2 params cells ii jj) (d_equ2 ld ux uy))
        speeds3 := Function.update tmp1.speeds3 idx
          (collide params.omega (pull3 params cells ii jj) (d_equ3 ld ux uy))
        speeds4 := Function.update tmp1.speeds4 idx
          (collide params.omega (pull4 params cells ii jj) (d_equ4 ld ux uy))
        speeds5 := Function.update tmp1.speeds5 idx
          (collide params.omega (pull5 params cells ii jj) (d_equ5 ld ux uy))
        speeds6 := Function.update tmp1.speeds6 idx
          (collide params.omega (pull6 params cells ii jj) (d_equ6 ld ux uy))
        speeds7 := Function.update tmp1.speeds7 idx
          (collide params.omega (pull7 params cells ii jj) (d_equ7 ld ux uy))
        speeds8 := Function.update tmp1.speeds8 idx
          (collide params.omega (pull8 params cells ii jj) (d_equ8 ld ux uy)) },
      st.2.1 + sqrtf (ux * ux + uy * uy), st.2.2 + 1)
  else
    (tmp1, st.2.1, st.2.2)

/-- The row-major traversal order of the double loop of lines 218-297:
`jj` outer over `0..ny-1`, `ii` inner over `0..nx-1`; elements are
`(ii, jj)`. -/
def cellList (params : t_param) : List (ℕ × ℕ) :=
  (List.range params.ny).flatMap fun jj =>
    (List.range params.nx).map fun ii => (ii, jj)

/-- The full fused stream/collide pass of `timestep` (src/4.c lines
212-298), starting from scratch grid `tmp_cells` and accumulators
`tot_u = 0.0f`, `tot_cells = 0`. -/
def streamCollide (params : t_param) (sqrtf : ℚ → ℚ) (cells tmp_cells : t_speed)
    (obstacles : ℕ → Bool) : t_speed × ℚ × ℕ :=
  (cellList params).foldl (streamCollideCell params sqrtf cells obstacles)
    (tmp_cells, 0, 0)

/-- `float w1 = params.density * params.accel / 9.f;` of accelerate_flow
(line 305); renamed to avoid the clash with the collision weight `w1`. -/
def acc_w1 (params : t_param) : ℚ := params.density * params.accel / 9

/-- `float w2 = params.density * params.accel / 36.f;` of accelerate_flow
(line 306). -/
def acc_w2 (params : t_param) : ℚ := params.density * params.accel / 36

/-- One iteration of the accelerate_flow loop body (src/4.c lines 311-326)
at column `ii` of row `jj = params.ny - 2`. -/
def accelerate_cell (params : t_param) (obstacles : ℕ → Bool)
    (cells : t_speed) (ii : ℕ) : t_speed :=
  let jj := params.ny - 2
  let idx := ii + jj * params.nx
  if obstacles idx = false ∧ cells.speeds3 idx - acc_w1 params > 0 ∧
      cells.speeds6 idx - acc_w2 params > 0 ∧ cells.speeds7 idx - acc_w2 params > 0 then
    { cells with
      speeds1 := Function.update cells.speeds1 idx (cells.speeds1 idx + acc_w1 params)
      speeds5 := Function.update cells.speeds5 idx (cells.speeds5 idx + acc_w2 params)
      speeds8 := Function.update cells.speeds8 idx (cells.speeds8 idx + acc_w2 params)
      speeds3 := Function.update cells.speeds3 idx (cells.speeds3 idx - acc_w1 params)
      speeds6 := Function.update cells.speeds6 idx (cells.speeds6 idx - acc_w2 params)
      speeds7 := Function.update cells.speeds7 idx (cells.speeds7 idx - acc_w2 params) }
  else cells

/-- `accelerate_flow` (src/4.c lines 302-329): modifies row
`jj = params.ny - 2` in place, column by column. -/
def accelerate_flow (params : t_param) (cells : t_speed)
    (obstacles : ℕ → Bool) : t_speed :=
  (List.range params.nx).foldl (accelerate_cell params obstacles) cells

/-- `timestep` (src/4.c lines 204-300): accelerate_flow on `cells`, then the
fused stream/collide pass into `tmp_cells`.  The result carries the final
scratch grid and the `tot_u` / `tot_cells` accumulators. -/
def timestep (params : t_param) (sqrtf : ℚ → ℚ) (cells tmp_cells : t_speed)
    (obstacles : ℕ → Bool) : t_speed × ℚ × ℕ :=
  streamCollide params sqrtf (accelerate_flow params cells obstacles)
    tmp_cells obstacles

/-- The value returned by `timestep`: `tot_u / (float)tot_cells` (line 299).
In ℚ a division by zero yields 0, where the C float yields NaN for
`tot_cells == 0`. -/
def timestep_ret (params : t_param) (sqrtf : ℚ → ℚ) (cells tmp_cells : t_speed)
    (obstacles : ℕ → Bool) : ℚ :=
  (timestep params sqrtf cells tmp_cells obstacles).2.1 /
    ((timestep params sqrtf cells tmp_cells obstacles).2.2 : ℚ)

/-- The per-cell density accumulation `local_density += cells->speedsK[...]`
shared by av_velocity (lines 348-357), total_density (lines 590-598) and
write_values, reading the cell's own nine values. -/
def snap_density (cells : t_speed) (idx : ℕ) : ℚ :=
  cells.speeds0 idx + cells.speeds1 idx + cells.speeds2 idx +
  cells.speeds3 idx + cells.speeds4 idx + cells.speeds5 idx +
  cells.speeds6 idx + cells.speeds7 idx + cells.speeds8 idx

/-- The x-velocity of av_velocity (line 360), from the cell's own values. -/
def snap_u_x (cells : t_speed) (idx : ℕ) : ℚ :=
  (cells.speeds1 idx + cells.speeds5 idx + cells.speeds8 idx -
    (cells.speeds3 idx + cells.speeds6 idx + cells.speeds7 idx)) /
  snap_density cells idx

/-- The y-velocity of av_velocity (line 362). -/
def snap_u_y (cells : t_speed) (idx : ℕ) : ℚ :=
  (cells.speeds2 idx + cells.speeds5 idx + cells.speeds6 idx -
    (cells.speeds4 idx + cells.speeds7 idx + cells.speeds8 idx)) /
  snap_density cells idx

/-- `av_velocity` (src/4.c lines 331-372): accumulates the speed norm over
non-obstacle cells and divides by their count. -/
def av_velocity (params : t_param) (sqrtf : ℚ → ℚ) (cells : t_speed)
    (obstacles : ℕ → Bool) : ℚ :=
  (∑ jj ∈ Finset.range params.ny, ∑ ii ∈ Finset.range params.nx,
    if obstacles (ii + jj * params.nx) = false then
      sqrtf (snap_u_x cells (ii + jj * params.nx) * snap_u_x cells (ii + jj * params.nx) +
        snap_u_y cells (ii + jj * params.nx) * snap_u_y cells (ii + jj * params.nx))
    else 0) /
  ((∑ jj ∈ Finset.range params.ny, ∑ ii ∈ Finset.range params.nx,
    if obstacles (ii + jj * params.nx) = false then (1 : ℕ) else 0 : ℕ) : ℚ)

/-- `total_density` (src/4.c lines 582-603): sum of all nine distribution
values over all cells. -/
def total_density (params : t_param) (cells : t_speed) : ℚ :=
  ∑ jj ∈ Finset.range params.ny, ∑ ii ∈ Finset.range params.nx,
    snap_density cells (ii + jj * params.nx)

/-- The density initialisation of `initialise` (src/4.c lines 490-511):
every cell receives `density*4/9` at rest, `density/9` on the axes and
`density/36` on the diagonals. -/
def initialise_field (params : t_param) : t_speed where
  speeds0 := fun _ => params.density * 4 / 9
  speeds1 := fun _ => params.density / 9
  speeds2 := fun _ => params.density / 9
  speeds3 := fun _ => params.density / 9
  speeds4 := fun _ => params.density / 9
  speeds5 := fun _ => params.density / 36
  speeds6 := fun _ => params.density / 36
  speeds7 := fun _ => params.density / 36
  speeds8 := fun _ => params.density / 36

/-- A concrete 2x2 parameter set with `density = 1`, `accel = 0`,
`omega = 1`, used to witness the theorems on concrete inputs. -/
def testParams : t_param := ⟨2, 2, 1, 1, 1, 0, 1⟩

/-- A concrete speed grid holding value `k + 1` in direction `k`. -/
def testCells : t_speed :=
  ⟨fun _ => 1, fun _ => 2, fun _ => 3, fun _ => 4, fun _ => 5,
   fun _ => 6, fun _ => 7, fun _ => 8, fun _ => 9⟩

/-- A concrete all-zero scratch grid. -/
def testTmp : t_speed :=
  ⟨fun _ => 0, fun _ => 0, fun _ => 0, fun _ => 0, fun _ => 0,
   fun _ => 0, fun _ => 0, fun _ => 0, fun _ => 0⟩

/-- An obstacle mask with no obstacles. -/
def noObstacles : ℕ → Bool := fun _ => false

/-- An obstacle mask blocking every cell. -/
def allObstacles : ℕ → Bool := fun _ => true

/-- A concrete stand-in for sqrtf (only its value at 0 matters for the
statements that constrain it). -/
def testSqrt : ℚ → ℚ := fun _ => 0

/-- Two speed grids agree on all nine directions at one flattened index. -/
def agreeAt (a b : t_speed) (idx : ℕ) : Prop :=
  a.speeds0 idx = b.speeds0 idx ∧ a.speeds1 idx = b.speeds1 idx ∧
  a.speeds2 idx = b.speeds2 idx ∧ a.speeds3 idx = b.speeds3 idx ∧
  a.speeds4 idx = b.speeds4 idx ∧ a.speeds5 idx = b.speeds5 idx ∧
  a.speeds6 idx = b.speeds6 idx ∧ a.speeds7 idx = b.speeds7 idx ∧
  a.speeds8 idx = b.speeds8 idx

lemma agreeAt_refl (a : t_speed) (idx : ℕ) : agreeAt a a idx :=
  ⟨rfl, rfl, rfl, rfl, rfl, rfl, rfl, rfl, rfl⟩

lemma agreeAt_trans {a b c : t_speed} {idx : ℕ}
    (h1 : agreeAt a b idx) (h2 : agreeAt b c idx) : agreeAt a c idx := by
  obtain ⟨e0, e1, e2, e3, e4, e5, e6, e7, e8⟩ := h1
  obtain ⟨f0, f1, f2, f3, f4, f5, f6, f7, f8⟩ := h2
  exact ⟨e0.trans f0, e1.trans f1, e2.trans f2, e3.trans f3, e4.trans f4,
    e5.trans f5, e6.trans f6, e7.trans f7, e8.trans f8⟩

/-- A stream/collide loop iteration leaves the scratch grid unchanged at
every flattened index other than its own cell's. -/
lemma streamCollideCell_frame (params : t_param) (sqrtf : ℚ → ℚ)
    (cells : t_speed) (obstacles : ℕ → Bool) (st : t_speed × ℚ × ℕ)
    (c : ℕ × ℕ) (idx : ℕ) (hne : idx ≠ c.1 + c.2 * params.nx) :
    agreeAt (streamCollideCell params sqrtf cells obstacles st c).1 st.1 idx := by
  cases hob : obstacles (c.1 + c.2 * params.nx) <;>
    cases hob2 : obstacles (c.2 * params.nx + c.1) <;>
      simp [streamCollideCell, agreeAt, hob, hob2, Function.update_noteq hne]

/-- A stream/collide iteration at a fluid cell writes the nine relaxed
values (lines 282-290) to the cell's own index in the scratch grid. -/
lemma streamCollideCell_fluid (params : t_param) (sqrtf : ℚ → ℚ)
    (cells : t_speed) (obstacles : ℕ → Bool) (st : t_speed × ℚ × ℕ) (ii jj : ℕ)
    (hob : obstacles (ii + jj * params.nx) = false) :
    (streamCollideCell params sqrtf cells obstacles st (ii, jj)).1.speeds0 (ii + jj * params.nx) =
      collide params.omega (pull0 params cells ii jj)
        (d_equ0 (local_density params cells ii jj) (u_x params cells ii jj) (u_y params cells ii jj)) ∧
    (streamCollideCell params sqrtf cells obstacles st (ii, jj)).1.speeds1 (ii + jj * params.nx) =
      collide params.omega (pull1 params cells ii jj)
        (d_equ1 (local_density params cells ii jj) (u_x params cells ii jj) (u_y params cells ii jj)) ∧
    (streamCollideCell params sqrtf cells obstacles st (ii, jj)).1.speeds2 (ii + jj * params.nx) =
      collide params.omega (pull2 params cells ii jj)
        (d_equ2 (local_density params cells ii jj) (u_x params cells ii jj) (u_y params cells ii jj)) ∧
    (streamCollideCell params sqrtf cells obstacles st (ii, jj)).1.speeds3 (ii + jj * params.nx) =
      collide params.omega (pull3 params cells ii jj)
        (d_equ3 (local_density params cells ii jj) (u_x params cells ii jj) (u_y params cells ii jj)) ∧
    (streamCollideCell params sqrtf cells obstacles st (ii, jj)).1.speeds4 (ii + jj * params.nx) =
      collide params.omega (pull4 params cells ii jj)
        (d_equ4 (local_density params cells ii jj) (u_x params cells ii jj) (u_y params cells ii jj)) ∧
    (streamCollideCell params sqrtf cells obstacles st (ii, jj)).1.speeds5 (ii + jj * params.nx) =
      collide params.omega (pull5 params cells ii jj)
        (d_equ5 (local_density params cells ii jj) (u_x params cells ii jj) (u_y params cells ii jj)) ∧
    (streamCollideCell params sqrtf cells obstacles st (ii, jj)).1.speeds6 (ii + jj * params.nx) =
      collide params.omega (pull6 params cells ii jj)
        (d_equ6 (local_density params cells ii jj) (u_x params cells ii jj) (u_y params cells ii jj)) ∧
    (streamCollideCell params sqrtf cells obstacles st (ii, jj)).1.speeds7 (ii + jj * params.nx) =
      collide params.omega (pull7 params cells ii jj)
        (d_equ7 (local_density params cells ii jj) (u_x params cells ii jj) (u_y params cells ii jj)) ∧
    (streamCollideCell params sqrtf cells obstacles st (ii, jj)).1.speeds8 (ii + jj * params.nx) =
      collide params.omega (pull8 params cells ii jj)
        (d_equ8 (local_density params cells ii jj) (u_x params cells ii jj) (u_y params cells ii jj)) := by
  have hob2 : obstacles (jj * params.nx + ii) = false := by rwa [Nat.add_comm]
  simp [streamCollideCell, hob, hob2, Function.update_same]

/-- A stream/collide iteration at an obstacle cell writes the mirrored
pulled values (lines 247-254) for directions 1-8 and leaves direction 0 of
the scratch grid untouched. -/
lemma streamCollideCell_obst (params : t_param) (sqrtf : ℚ → ℚ)
    (cells : t_speed) (obstacles : ℕ → Bool) (st : t_speed × ℚ × ℕ) (ii jj : ℕ)
    (hob : obstacles (ii + jj * params.nx) = true) :
    (streamCollideCell params sqrtf cells obstacles st (ii, jj)).1.speeds1 (ii + jj * params.nx) =
      pull3 params cells ii jj ∧
    (streamCollideCell params sqrtf cells obstacles st (ii, jj)).1.speeds2 (ii + jj * params.nx) =
      pull4 params cells ii jj ∧
    (streamCollideCell params sqrtf cells obstacles st (ii, jj)).1.speeds3 (ii + jj * params.nx) =
      pull1 params cells ii jj ∧
    (streamCollideCell params sqrtf cells obstacles st (ii, jj)).1.speeds4 (ii + jj * params.nx) =
      pull2 params cells ii jj ∧
    (streamCollideCell params sqrtf cells obstacles st (ii, jj)).1.speeds5 (ii + jj * params.nx) =
      pull7 params cells ii jj ∧
    (streamCollideCell params sqrtf cells obstacles st (ii, jj)).1.speeds6 (ii + jj * params.nx) =
      pull8 params cells ii jj ∧
    (streamCollideCell params sqrtf cells obstacles st (ii, jj)).1.speeds7 (ii + jj * params.nx) =
      pull5 params cells ii jj ∧
    (streamCollideCell params sqrtf cells obstacles st (ii, jj)).1.speeds8 (ii + jj * params.nx) =
      pull6 params cells ii jj ∧
    (streamCollideCell params sqrtf cells obstacles st (ii, jj)).1.speeds0 (ii + jj * params.nx) =
      st.1.speeds0 (ii + jj * params.nx) := by
  have hob2 : obstacles (jj * params.nx + ii) = true := by rwa [Nat.add_comm]
  simp [streamCollideCell, hob, hob2, Function.update_same]

/-- The accumulator components of one stream/collide iteration: `tot_u`
gains the speed norm and `tot_cells` gains one at fluid cells only
(lines 292-295). -/
lemma streamCollideCell_totals (params : t_param) (sqrtf : ℚ → ℚ)
    (cells : t_speed) (obstacles : ℕ → Bool) (st : t_speed × ℚ × ℕ) (c : ℕ × ℕ) :
    (streamCollideCell params sqrtf cells obstacles st c).2.1 =
      st.2.1 + (if obstacles (c.1 + c.2 * params.nx) = false then
        sqrtf (u_x params cells c.1 c.2 * u_x params cells c.1 c.2 +
          u_y params cells c.1 c.2 * u_y params cells c.1 c.2) else 0) ∧
    (streamCollideCell params sqrtf cells obstacles st c).2.2 =
      st.2.2 + (if obstacles (c.1 + c.2 * params.nx) = false then 1 else 0) := by
  cases hob : obstacles (c.1 + c.2 * params.nx) <;>
    simp [streamCollideCell, hob]

/-- Folding the stream/collide body over a list of cells that never target
`idx` leaves the scratch grid unchanged at `idx`. -/
lemma streamCollide_foldl_frame (params : t_param) (sqrtf : ℚ → ℚ)
    (cells : t_speed) (obstacles : ℕ → Bool) (idx : ℕ) :
    ∀ (L : List (ℕ × ℕ)), (∀ c ∈ L, idx ≠ c.1 + c.2 * params.nx) →
      ∀ st : t_speed × ℚ × ℕ,
        agreeAt ((L.foldl (streamCollideCell params sqrtf cells obstacles) st).1) st.1 idx := by
  intro L
  induction L with
  | nil => intro _ st; exact agreeAt_refl _ _
  | cons a L ih =>
    intro hL st
    have h1 := streamCollideCell_frame params sqrtf cells obstacles st a idx
      (hL a (by simp))
    have h2 := ih (fun c hc => hL c (by simp [hc]))
      (streamCollideCell params sqrtf cells obstacles st a)
    exact agreeAt_trans h2 h1

/-- Folding the stream/collide body over a list containing the fluid cell
`(ii, jj)` (and no other cell with the same flattened index) writes the
relaxed values at that index. -/
lemma streamCollide_foldl_fluid (params : t_param) (sqrtf : ℚ → ℚ)
    (cells : t_speed) (obstacles : ℕ → Bool) (ii jj : ℕ)
    (hob : obstacles (ii + jj * params.nx) = false) :
    ∀ (L : List (ℕ × ℕ)), (ii, jj) ∈ L →
      (∀ c ∈ L, c.1 + c.2 * params.nx = ii + jj * params.nx → c = (ii, jj)) →
      ∀ st : t_speed × ℚ × ℕ,
        agreeAt ((L.foldl (streamCollideCell params sqrtf cells obstacles) st).1)
          (streamCollideCell params sqrtf cells obstacles st (ii, jj)).1
          (ii + jj * params.nx) := by
  intro L
  induction L with
  | nil => intro h; exact absurd h (List.not_mem_nil _)
  | cons a L ih =>
    intro hmem hinj st
    by_cases ha : a = (ii, jj)
    · subst ha
      by_cases hmem2 : (ii, jj) ∈ L
      · have step1 := ih hmem2 (fun c hc => hinj c (by simp [hc]))
          (streamCollideCell params sqrtf cells obstacles st (ii, jj))
        -- two successive writes of the same state-independent values agree
        refine agreeAt_trans step1 ?_
        by_cases hcase : obstacles (ii + jj * params.nx) = false
        · obtain ⟨e0, e1, e2, e3, e4, e5, e6, e7, e8⟩ :=
            streamCollideCell_fluid params sqrtf cells obstacles
              (streamCollideCell params sqrtf cells obstacles st (ii, jj)) ii jj hcase
          obtain ⟨f0, f1, f2, f3, f4, f5, f6, f7, f8⟩ :=
            streamCollideCell_fluid params sqrtf cells obstacles st ii jj hcase
          exact ⟨e0.trans f0.symm, e1.trans f1.symm, e2.trans f2.symm, e3.trans f3.symm,
            e4.trans f4.symm, e5.trans f5.symm, e6.trans f6.symm, e7.trans f7.symm,
            e8.trans f8.symm⟩
        · exact absurd hob hcase
      · have hfr : ∀ c ∈ L, ii + jj * params.nx ≠ c.1 + c.2 * params.nx := by
          intro c hc hne
          exact hmem2 (by rw [← hinj c (by simp [hc]) hne.symm]; exact hc)
        exact streamCollide_foldl_frame params sqrtf cells obstacles _ L hfr _
    · have hmem2 : (ii, jj) ∈ L := by
        rcases List.mem_cons.mp hmem with h | h
        · exact absurd h.symm ha
        · exact h
      have step1 := ih hmem2 (fun c hc => hinj c (by simp [hc]))
        (streamCollideCell params sqrtf cells obstacles st a)
      refine agreeAt_trans step1 ?_
      by_cases hcase : obstacles (ii + jj * params.nx) = false
      · obtain ⟨e0, e1, e2, e3, e4, e5, e6, e7, e8⟩ :=
          streamCollideCell_fluid params sqrtf cells obstacles
            (streamCollideCell params sqrtf cells obstacles st a) ii jj hcase
        obtain ⟨f0, f1, f2, f3, f4, f5, f6, f7, f8⟩ :=
          streamCollideCell_fluid params sqrtf cells obstacles st ii jj hcase
        exact ⟨e0.trans f0.symm, e1.trans f1.symm, e2.trans f2.symm, e3.trans f3.symm,
          e4.trans f4.symm, e5.trans f5.symm, e6.trans f6.symm, e7.trans f7.symm,
          e8.trans f8.symm⟩
      · exact absurd hob hcase

/-- Folding the stream/collide body over a list containing the obstacle
cell `(ii, jj)` (and no other cell with the same flattened index) leaves
that index's scratch values equal to a single bounce-back write. -/
lemma streamCollide_foldl_obst (params : t_param) (sqrtf : ℚ → ℚ)
    (cells : t_speed) (obstacles : ℕ → Bool) (ii jj : ℕ)
    (hob : obstacles (ii + jj * params.nx) = true) :
    ∀ (L : List (ℕ × ℕ)), (ii, jj) ∈ L →
      (∀ c ∈ L, c.1 + c.2 * params.nx = ii + jj * params.nx → c = (ii, jj)) →
      ∀ st : t_speed × ℚ × ℕ,
        agreeAt ((L.foldl (streamCollideCell params sqrtf cells obstacles) st).1)
          (streamCollideCell params sqrtf cells obstacles st (ii, jj)).1
          (ii + jj * params.nx) := by
  intro L
  induction L with
  | nil => intro h; exact absurd h (List.not_mem_nil _)
  | cons a L ih =>
    intro hmem hinj st
    have stepAgree : ∀ st1 st2 : t_speed × ℚ × ℕ,
        st1.1.speeds0 (ii + jj * params.nx) = st2.1.speeds0 (ii + jj * params.nx) →
        agreeAt (streamCollideCell params sqrtf cells obstacles st1 (ii, jj)).1
          (streamCollideCell params sqrtf cells obstacles st2 (ii, jj)).1
          (ii + jj * params.nx) := by
      intro st1 st2 h0
      obtain ⟨e1, e2, e3, e4, e5, e6, e7, e8, e0⟩ :=
        streamCollideCell_obst params sqrtf cells obstacles st1 ii jj hob
      obtain ⟨f1, f2, f3, f4, f5, f6, f7, f8, f0⟩ :=
        streamCollideCell_obst params sqrtf cells obstacles st2 ii jj hob
      exact ⟨e0.trans (h0.trans f0.symm), e1.trans f1.symm, e2.trans f2.symm,
        e3.trans f3.symm, e4.trans f4.symm, e5.trans f5.symm, e6.trans f6.symm,
        e7.trans f7.symm, e8.trans f8.symm⟩
    by_cases ha : a = (ii, jj)
    · subst ha
      by_cases hmem2 : (ii, jj) ∈ L
      · have step1 := ih hmem2 (fun c hc => hinj c (by simp [hc]))
          (streamCollideCell params sqrtf cells obstacles st (ii, jj))
        refine agreeAt_trans step1 (stepAgree _ _ ?_)
        exact (streamCollideCell_obst params sqrtf cells obstacles st ii jj hob).2.2.2.2.2.2.2.2
      · have hfr : ∀ c ∈ L, ii + jj * params.nx ≠ c.1 + c.2 * params.nx := by
          intro c hc hne
          exact hmem2 (by rw [← hinj c (by simp [hc]) hne.symm]; exact hc)
        exact streamCollide_foldl_frame params sqrtf cells obstacles _ L hfr _
    · have hmem2 : (ii, jj) ∈ L := by
        rcases List.mem_cons.mp hmem with h | h
        · exact absurd h.symm ha
        · exact h
      have hne : ii + jj * params.nx ≠ a.1 + a.2 * params.nx := by
        intro h
        exact ha (hinj a (by simp) h.symm)
      have step1 := ih hmem2 (fun c hc => hinj c (by simp [hc]))
        (streamCollideCell params sqrtf cells obstacles st a)
      refine agreeAt_trans step1 (stepAgree _ _ ?_)
      exact (streamCollideCell_frame params sqrtf cells obstacles st a _ hne).1

lemma mem_cellList (params : t_param) (c : ℕ × ℕ) :
    c ∈ cellList params ↔ c.1 < params.nx ∧ c.2 < params.ny := by
  obtain ⟨ii, jj⟩ := c
  simp only [cellList, List.mem_flatMap, List.mem_map, List.mem_range, Prod.mk.injEq]
  constructor
  · rintro ⟨j, hj, i, hi, rfl, rfl⟩
    exact ⟨hi, hj⟩
  · rintro ⟨hi, hj⟩
    exact ⟨jj, hj, ii, hi, rfl, rfl⟩

/-- Distinct cells of the grid have distinct flattened indices. -/
lemma flat_idx_inj (params : t_param) (c d : ℕ × ℕ) (hc : c.1 < params.nx)
    (hd : d.1 < params.nx) (h : c.1 + c.2 * params.nx = d.1 + d.2 * params.nx) :
    c = d := by
  have h1 : c.1 % params.nx = c.1 := Nat.mod_eq_of_lt hc
  have h2 : d.1 % params.nx = d.1 := Nat.mod_eq_of_lt hd
  have hx : c.1 = d.1 := by
    have := congrArg (· % params.nx) h
    simpa [Nat.add_mul_mod_self_right, h1, h2] using this
  have hnx : 0 < params.nx := Nat.pos_of_ne_zero (by omega)
  have hy : c.2 = d.2 := by
    have := congrArg (· / params.nx) h
    simpa [Nat.add_mul_div_right _ _ hnx, Nat.div_eq_of_lt hc, Nat.div_eq_of_lt hd] using this
  exact Prod.ext hx hy

/-- The scratch values written by the full pass at a fluid cell. -/
lemma streamCollide_fluid (params : t_param) (sqrtf : ℚ → ℚ)
    (cells tmp_cells : t_speed) (obstacles : ℕ → Bool) (ii jj : ℕ)
    (hii : ii < params.nx) (hjj : jj < params.ny)
    (hob : obstacles (ii + jj * params.nx) = false) :
    agreeAt (streamCollide params sqrtf cells tmp_cells obstacles).1
      (streamCollideCell params sqrtf cells obstacles (tmp_cells, 0, 0) (ii, jj)).1
      (ii + jj * params.nx) := by
  exact streamCollide_foldl_fluid params sqrtf cells obstacles ii jj hob
    (cellList params) ((mem_cellList params (ii, jj)).mpr ⟨hii, hjj⟩)
    (fun c hc h => flat_idx_inj params c (ii, jj)
      ((mem_cellList params c).mp hc).1 hii h)
    (tmp_cells, 0, 0)

/-- The scratch values written by the full pass at an obstacle cell. -/
lemma streamCollide_obst (params : t_param) (sqrtf : ℚ → ℚ)
    (cells tmp_cells : t_speed) (obstacles : ℕ → Bool) (ii jj : ℕ)
    (hii : ii < params.nx) (hjj : jj < params.ny)
    (hob : obstacles (ii + jj * params.nx) = true) :
    agreeAt (streamCollide params sqrtf cells tmp_cells obstacles).1
      (streamCollideCell params sqrtf cells obstacles (tmp_cells, 0, 0) (ii, jj)).1
      (ii + jj * params.nx) := by
  exact streamCollide_foldl_obst params sqrtf cells obstacles ii jj hob
    (cellList params) ((mem_cellList params (ii, jj)).mpr ⟨hii, hjj⟩)
    (fun c hc h => flat_idx_inj params c (ii, jj)
      ((mem_cellList params c).mp hc).1 hii h)
    (tmp_cells, 0, 0)

/-- The accumulators of the fold are the initial values plus the per-cell
contributions, summed over the traversed list. -/
lemma streamCollide_foldl_totals (params : t_param) (sqrtf : ℚ → ℚ)
    (cells : t_speed) (obstacles : ℕ → Bool) :
    ∀ (L : List (ℕ × ℕ)) (st : t_speed × ℚ × ℕ),
      (L.foldl (streamCollideCell params sqrtf cells obstacles) st).2.1 =
        st.2.1 + (L.map (fun c => if obstacles (c.1 + c.2 * params.nx) = false then
          sqrtf (u_x params cells c.1 c.2 * u_x params cells c.1 c.2 +
            u_y params cells c.1 c.2 * u_y params cells c.1 c.2) else 0)).sum ∧
      (L.foldl (streamCollideCell params sqrtf cells obstacles) st).2.2 =
        st.2.2 + (L.map (fun c =>
          if obstacles (c.1 + c.2 * params.nx) = false then 1 else 0)).sum := by
  intro L
  induction L with
  | nil => intro st; simp
  | cons a L ih =>
    intro st
    obtain ⟨h1, h2⟩ := ih (streamCollideCell params sqrtf cells obstacles st a)
    obtain ⟨g1, g2⟩ := streamCollideCell_totals params sqrtf cells obstacles st a
    constructor
    · rw [List.foldl_cons, h1, g1, List.map_cons, List.sum_cons]; ring
    · rw [List.foldl_cons, h2, g2, List.map_cons, List.sum_cons]; omega

lemma range_map_sum {M : Type} [AddCommMonoid M] (n : ℕ) (f : ℕ → M) :
    ((List.range n).map f).sum = ∑ i ∈ Finset.range n, f i := by
  induction n with
  | zero => simp
  | succ n ih =>
    rw [List.range_succ, List.map_append, List.sum_append, Finset.sum_range_succ, ih]
    simp

lemma cellList_map_sum {M : Type} [AddCommMonoid M] (params : t_param)
    (f : ℕ × ℕ → M) :
    ((cellList params).map f).sum =
      ∑ jj ∈ Finset.range params.ny, ∑ ii ∈ Finset.range params.nx, f (ii, jj) := by
  unfold cellList
  induction params.ny with
  | zero => simp
  | succ n ih =>
    rw [List.range_succ, List.flatMap_append, List.map_append, List.sum_append,
      Finset.sum_range_succ, ih]
    simp [range_map_sum, List.map_map, Function.comp_def]

/-- The `tot_u` and `tot_cells` accumulators of the full pass as double sums
over the grid. -/
lemma streamCollide_totals (params : t_param) (sqrtf : ℚ → ℚ)
    (cells tmp_cells : t_speed) (obstacles : ℕ → Bool) :
    (streamCollide params sqrtf cells tmp_cells obstacles).2.1 =
      (∑ jj ∈ Finset.range params.ny, ∑ ii ∈ Finset.range params.nx,
        if obstacles (ii + jj * params.nx) = false then
          sqrtf (u_x params cells ii jj * u_x params cells ii jj +
            u_y params cells ii jj * u_y params cells ii jj) else 0) ∧
    (streamCollide params sqrtf cells tmp_cells obstacles).2.2 =
      (∑ jj ∈ Finset.range params.ny, ∑ ii ∈ Finset.range params.nx,
        if obstacles (ii + jj * params.nx) = false then 1 else 0) := by
  obtain ⟨h1, h2⟩ := streamCollide_foldl_totals params sqrtf cells obstacles
    (cellList params) (tmp_cells, 0, 0)
  constructor
  · rw [streamCollide, h1, cellList_map_sum]; simp
  · rw [streamCollide, h2, cellList_map_sum]; simp

/-- An accelerate_flow loop iteration changes nothing at any flattened
index other than its own cell's. -/
lemma accelerate_cell_frame (params : t_param) (obstacles : ℕ → Bool)
    (cells : t_speed) (ii : ℕ) (idx : ℕ)
    (hne : idx ≠ ii + (params.ny - 2) * params.nx) :
    agreeAt (accelerate_cell params obstacles cells ii) cells idx := by
  unfold accelerate_cell
  simp only []
  split <;> simp [agreeAt, Function.update_noteq hne]

/-- The accelerate_flow loop body only reads and writes its own cell, so
two grids agreeing at that cell remain in agreement there after the step. -/
lemma accelerate_cell_congrAt (params : t_param) (obstacles : ℕ → Bool)
    (c d : t_speed) (ii : ℕ)
    (h : agreeAt c d (ii + (params.ny - 2) * params.nx)) :
    agreeAt (accelerate_cell params obstacles c ii)
      (accelerate_cell params obstacles d ii)
      (ii + (params.ny - 2) * params.nx) := by
  obtain ⟨e0, e1, e2, e3, e4, e5, e6, e7, e8⟩ := h
  unfold accelerate_cell
  simp only []
  rw [e3, e6, e7]
  by_cases hg : obstacles (ii + (params.ny - 2) * params.nx) = false ∧
      d.speeds3 (ii + (params.ny - 2) * params.nx) - acc_w1 params > 0 ∧
      d.speeds6 (ii + (params.ny - 2) * params.nx) - acc_w2 params > 0 ∧
      d.speeds7 (ii + (params.ny - 2) * params.nx) - acc_w2 params > 0
  · simp only [if_pos hg]
    exact ⟨e0, by simp [Function.update_same, e1], e2, by simp [Function.update_same, e3],
      e4, by simp [Function.update_same, e5], by simp [Function.update_same, e6],
      by simp [Function.update_same, e7], by simp [Function.update_same, e8]⟩
  · simp only [if_neg hg]
    exact ⟨e0, e1, e2, e3, e4, e5, e6, e7, e8⟩

lemma accelerate_foldl_frame (params : t_param) (obstacles : ℕ → Bool) (idx : ℕ) :
    ∀ (L : List ℕ), (∀ i ∈ L, idx ≠ i + (params.ny - 2) * params.nx) →
      ∀ cells : t_speed,
        agreeAt (L.foldl (accelerate_cell params obstacles) cells) cells idx := by
  intro L
  induction L with
  | nil => intro _ cells; exact agreeAt_refl _ _
  | cons a L ih =>
    intro hL cells
    exact agreeAt_trans
      (ih (fun i hi => hL i (by simp [hi])) (accelerate_cell params obstacles cells a))
      (accelerate_cell_frame params obstacles cells a idx (hL a (by simp)))

lemma accelerate_foldl_hit (params : t_param) (obstacles : ℕ → Bool) (ii : ℕ) :
    ∀ (L : List ℕ), ii ∈ L → L.Nodup → ∀ cells : t_speed,
      agreeAt (L.foldl (accelerate_cell params obstacles) cells)
        (accelerate_cell params obstacles cells ii)
        (ii + (params.ny - 2) * params.nx) := by
  intro L
  induction L with
  | nil => intro h; exact absurd h (List.not_mem_nil _)
  | cons a L ih =>
    intro hmem hnd cells
    obtain ⟨hna, hndL⟩ := List.nodup_cons.mp hnd
    by_cases ha : a = ii
    · subst ha
      have hfr : ∀ i ∈ L, a + (params.ny - 2) * params.nx ≠ i + (params.ny - 2) * params.nx := by
        intro i hi h
        exact hna (by rw [Nat.add_right_cancel h]; exact hi)
      exact accelerate_foldl_frame params obstacles _ L hfr _
    · have hmem2 : ii ∈ L := by
        rcases List.mem_cons.mp hmem with h | h
        · exact absurd h.symm ha
        · exact h
      have hne : ii + (params.ny - 2) * params.nx ≠ a + (params.ny - 2) * params.nx := by
        intro h
        exact ha (Nat.add_right_cancel h).symm
      refine agreeAt_trans (ih hmem2 hndL (accelerate_cell params obstacles cells a)) ?_
      exact accelerate_cell_congrAt params obstacles _ _ ii
        (accelerate_cell_frame params obstacles cells a _ hne)

/-- accelerate_flow at a column of the accelerated row acts like a single
loop iteration from the original grid. -/
lemma accelerate_at (params : t_param) (cells : t_speed) (obstacles : ℕ → Bool)
    (ii : ℕ) (hii : ii < params.nx) :
    agreeAt (accelerate_flow params cells obstacles)
      (accelerate_cell params obstacles cells ii)
      (ii + (params.ny - 2) * params.nx) :=
  accelerate_foldl_hit params obstacles ii (List.range params.nx)
    (List.mem_range.mpr hii) (List.nodup_range _) cells

/-- accelerate_flow changes nothing outside the accelerated row. -/
lemma accelerate_off (params : t_param) (cells : t_speed) (obstacles : ℕ → Bool)
    (idx : ℕ) (h : ∀ i, i < params.nx → idx ≠ i + (params.ny - 2) * params.nx) :
    agreeAt (accelerate_flow params cells obstacles) cells idx :=
  accelerate_foldl_frame params obstacles idx (List.range params.nx)
    (fun i hi => h i (List.mem_range.mp hi)) cells

/-- With `accel = 0` the accelerate step is the identity on the grid. -/
lemma accelerate_flow_accel_zero (params : t_param) (cells : t_speed)
    (obstacles : ℕ → Bool) (hacc : params.accel = 0) :
    accelerate_flow params cells obstacles = cells := by
  have hw1 : acc_w1 params = 0 := by simp [acc_w1, hacc]
  have hw2 : acc_w2 params = 0 := by simp [acc_w2, hacc]
  have hstep : ∀ (c : t_speed) (i : ℕ), accelerate_cell params obstacles c i = c := by
    intro c i
    unfold accelerate_cell
    simp only []
    split
    · ext idx2 <;> simp [hw1, hw2, Function.update_eq_self]
    · rfl
  unfold accelerate_flow
  induction List.range params.nx with
  | nil => rfl
  | cons a L ih => rw [List.foldl_cons, hstep]; exact ih

/-- The nine equilibrium distributions sum to the local density, for any
velocity components (zeroth-moment lattice identity). -/
lemma d_equ_sum (ld ux uy : ℚ) :
    d_equ0 ld ux uy + d_equ1 ld ux uy + d_equ2 ld ux uy + d_equ3 ld ux uy +
    d_equ4 ld ux uy + d_equ5 ld ux uy + d_equ6 ld ux uy + d_equ7 ld ux uy +
    d_equ8 ld ux uy = ld := by
  simp only [d_equ0, d_equ1, d_equ2, d_equ3, d_equ4, d_equ5, d_equ6, d_equ7, d_equ8,
    w0, w1, w2, c_sq_inv]
  ring

/-- First moment of the equilibrium distributions along x. -/
lemma d_equ_momx (ld ux uy : ℚ) :
    d_equ1 ld ux uy + d_equ5 ld ux uy + d_equ8 ld ux uy -
      (d_equ3 ld ux uy + d_equ6 ld ux uy + d_equ7 ld ux uy) = ld * ux := by
  simp only [d_equ1, d_equ3, d_equ5, d_equ6, d_equ7, d_equ8, w1, w2, c_sq_inv]
  ring

/-- First moment of the equilibrium distributions along y. -/
lemma d_equ_momy (ld ux uy : ℚ) :
    d_equ2 ld ux uy + d_equ5 ld ux uy + d_equ6 ld ux uy -
      (d_equ4 ld ux uy + d_equ7 ld ux uy + d_equ8 ld ux uy) = ld * uy := by
  simp only [d_equ2, d_equ4, d_equ5, d_equ6, d_equ7, d_equ8, w1, w2, c_sq_inv]
  ring

/-- The nine relaxed values written at a fluid cell sum to the pulled local
density: the BGK collision conserves mass exactly. -/
lemma fluid_cell_sum (params : t_param) (cells : t_speed) (ii jj : ℕ) :
    collide params.omega (pull0 params cells ii jj)
      (d_equ0 (local_density params cells ii jj) (u_x params cells ii jj) (u_y params cells ii jj)) +
    collide params.omega (pull1 params cells ii jj)
      (d_equ1 (local_density params cells ii jj) (u_x params cells ii jj) (u_y params cells ii jj)) +
    collide params.omega (pull2 params cells ii jj)
      (d_equ2 (local_density params cells ii jj) (u_x params cells ii jj) (u_y params cells ii jj)) +
    collide params.omega (pull3 params cells ii jj)
      (d_equ3 (local_density params cells ii jj) (u_x params cells ii jj) (u_y params cells ii jj)) +
    collide params.omega (pull4 params cells ii jj)
      (d_equ4 (local_density params cells ii jj) (u_x params cells ii jj) (u_y params cells ii jj)) +
    collide params.omega (pull5 params cells ii jj)
      (d_equ5 (local_density params cells ii jj) (u_x params cells ii jj) (u_y params cells ii jj)) +
    collide params.omega (pull6 params cells ii jj)
      (d_equ6 (local_density params cells ii jj) (u_x params cells ii jj) (u_y params cells ii jj)) +
    collide params.omega (pull7 params cells ii jj)
      (d_equ7 (local_density params cells ii jj) (u_x params cells ii jj) (u_y params cells ii jj)) +
    collide params.omega (pull8 params cells ii jj)
      (d_equ8 (local_density params cells ii jj) (u_x params cells ii jj) (u_y params cells ii jj)) =
    local_density params cells ii jj := by
  have h := d_equ_sum (local_density params cells ii jj)
    (u_x params cells ii jj) (u_y params cells ii jj)
  have hD : local_density params cells ii jj =
      pull0 params cells ii jj + pull1 params cells ii jj + pull2 params cells ii jj +
      pull3 params cells ii jj + pull4 params cells ii jj + pull5 params cells ii jj +
      pull6 params cells ii jj + pull7 params cells ii jj + pull8 params cells ii jj := rfl
  simp only [collide]
  linear_combination params.omega * h + (params.omega - 1) * hD

/-- The nine scratch values at a fluid cell after the full pass. -/
lemma streamCollide_fluid_vals (params : t_param) (sqrtf : ℚ → ℚ)
    (cells tmp_cells : t_speed) (obstacles : ℕ → Bool) (ii jj : ℕ)
    (hii : ii < params.nx) (hjj : jj < params.ny)
    (hob : obstacles (ii + jj * params.nx) = false) :
    (streamCollide params sqrtf cells tmp_cells obstacles).1.speeds0 (ii + jj * params.nx) =
      collide params.omega (pull0 params cells ii jj)
        (d_equ0 (local_density params cells ii jj) (u_x params cells ii jj) (u_y params cells ii jj)) ∧
    (streamCollide params sqrtf cells tmp_cells obstacles).1.speeds1 (ii + jj * params.nx) =
      collide params.omega (pull1 params cells ii jj)
        (d_equ1 (local_density params cells ii jj) (u_x params cells ii jj) (u_y params cells ii jj)) ∧
    (streamCollide params sqrtf cells tmp_cells obstacles).1.speeds2 (ii + jj * params.nx) =
      collide params.omega (pull2 params cells ii jj)
        (d_equ2 (local_density params cells ii jj) (u_x params cells ii jj) (u_y params cells ii jj)) ∧
    (streamCollide params sqrtf cells tmp_cells obstacles).1.speeds3 (ii + jj * params.nx) =
      collide params.omega (pull3 params cells ii jj)
        (d_equ3 (local_density params cells ii jj) (u_x params cells ii jj) (u_y params cells ii jj)) ∧
    (streamCollide params sqrtf cells tmp_cells obstacles).1.speeds4 (ii + jj * params.nx) =
      collide params.omega (pull4 params cells ii jj)
        (d_equ4 (local_density params cells ii jj) (u_x params cells ii jj) (u_y params cells ii jj)) ∧
    (streamCollide params sqrtf cells tmp_cells obstacles).1.speeds5 (ii + jj * params.nx) =
      collide params.omega (pull5 params cells ii jj)
        (d_equ5 (local_density params cells ii jj) (u_x params cells ii jj) (u_y params cells ii jj)) ∧
    (streamCollide params sqrtf cells tmp_cells obstacles).1.speeds6 (ii + jj * params.nx) =
      collide params.omega (pull6 params cells ii jj)
        (d_equ6 (local_density params cells ii jj) (u_x params cells ii jj) (u_y params cells ii jj)) ∧
    (streamCollide params sqrtf cells tmp_cells obstacles).1.speeds7 (ii + jj * params.nx) =
      collide params.omega (pull7 params cells ii jj)
        (d_equ7 (local_density params cells ii jj) (u_x params cells ii jj) (u_y params cells ii jj)) ∧
    (streamCollide params sqrtf cells tmp_cells obstacles).1.speeds8 (ii + jj * params.nx) =
      collide params.omega (pull8 params cells ii jj)
        (d_equ8 (local_density params cells ii jj) (u_x params cells ii jj) (u_y params cells ii jj)) := by
  obtain ⟨a0, a1, a2, a3, a4, a5, a6, a7, a8⟩ :=
    streamCollide_fluid params sqrtf cells tmp_cells obstacles ii jj hii hjj hob
  obtain ⟨b0, b1, b2, b3, b4, b5, b6, b7, b8⟩ :=
    streamCollideCell_fluid params sqrtf cells obstacles (tmp_cells, 0, 0) ii jj hob
  exact ⟨a0.trans b0, a1.trans b1, a2.trans b2, a3.trans b3, a4.trans b4,
    a5.trans b5, a6.trans b6, a7.trans b7, a8.trans b8⟩

/-- The local density a fluid cell carries in the scratch grid equals the
pulled local density of the pass that wrote it. -/
lemma snap_density_streamCollide (params : t_param) (sqrtf : ℚ → ℚ)
    (cells tmp_cells : t_speed) (obstacles : ℕ → Bool) (ii jj : ℕ)
    (hii : ii < params.nx) (hjj : jj < params.ny)
    (hob : obstacles (ii + jj * params.nx) = false) :
    snap_density (streamCollide params sqrtf cells tmp_cells obstacles).1 (ii + jj * params.nx) =
      local_density params cells ii jj := by
  obtain ⟨v0, v1, v2, v3, v4, v5, v6, v7, v8⟩ :=
    streamCollide_fluid_vals params sqrtf cells tmp_cells obstacles ii jj hii hjj hob
  rw [snap_density, v0, v1, v2, v3, v4, v5, v6, v7, v8]
  exact fluid_cell_sum params cells ii jj

/-- The velocity a fluid cell carries in the scratch grid equals the pulled
velocity of the pass that wrote it (momentum is preserved by the BGK
collision; with zero local density both sides are the zero of ℚ division). -/
lemma snap_velocity_streamCollide (params : t_param) (sqrtf : ℚ → ℚ)
    (cells tmp_cells : t_speed) (obstacles : ℕ → Bool) (ii jj : ℕ)
    (hii : ii < params.nx) (hjj : jj < params.ny)
    (hob : obstacles (ii + jj * params.nx) = false) :
    snap_u_x (streamCollide params sqrtf cells tmp_cells obstacles).1 (ii + jj * params.nx) =
      u_x params cells ii jj ∧
    snap_u_y (streamCollide params sqrtf cells tmp_cells obstacles).1 (ii + jj * params.nx) =
      u_y params cells ii jj := by
  obtain ⟨v0, v1, v2, v3, v4, v5, v6, v7, v8⟩ :=
    streamCollide_fluid_vals params sqrtf cells tmp_cells obstacles ii jj hii hjj hob
  have hsum := snap_density_streamCollide params sqrtf cells tmp_cells obstacles ii jj hii hjj hob
  by_cases hld : local_density params cells ii jj = 0
  · constructor
    · rw [snap_u_x, hsum, hld, div_zero, u_x, hld, div_zero]
    · rw [snap_u_y, hsum, hld, div_zero, u_y, hld, div_zero]
  · have hmx : local_density params cells ii jj * u_x params cells ii jj =
        pull1 params cells ii jj + pull5 params cells ii jj + pull8 params cells ii jj -
          (pull3 params cells ii jj + pull6 params cells ii jj + pull7 params cells ii jj) := by
      rw [u_x]; field_simp
    have hmy : local_density params cells ii jj * u_y params cells ii jj =
        pull2 params cells ii jj + pull5 params cells ii jj + pull6 params cells ii jj -
          (pull4 params cells ii jj + pull7 params cells ii jj + pull8 params cells ii jj) := by
      rw [u_y]; field_simp
    have hnx := d_equ_momx (local_density params cells ii jj)
      (u_x params cells ii jj) (u_y params cells ii jj)
    have hny := d_equ_momy (local_density params cells ii jj)
      (u_x params cells ii jj) (u_y params cells ii jj)
    have hnumx : collide params.omega (pull1 params cells ii jj)
          (d_equ1 (local_density params cells ii jj) (u_x params cells ii jj) (u_y params cells ii jj)) +
        collide params.omega (pull5 params cells ii jj)
          (d_equ5 (local_density params cells ii jj) (u_x params cells ii jj) (u_y params cells ii jj)) +
        collide params.omega (pull8 params cells ii jj)
          (d_equ8 (local_density params cells ii jj) (u_x params cells ii jj) (u_y params cells ii jj)) -
        (collide params.omega (pull3 params cells ii jj)
          (d_equ3 (local_density params cells ii jj) (u_x params cells ii jj) (u_y params cells ii jj)) +
        collide params.omega (pull6 params cells ii jj)
          (d_equ6 (local_density params cells ii jj) (u_x params cells ii jj) (u_y params cells ii jj)) +
        collide params.omega (pull7 params cells ii jj)
          (d_equ7 (local_density params cells ii jj) (u_x params cells ii jj) (u_y params cells ii jj))) =
        pull1 params cells ii jj + pull5 params cells ii jj + pull8 params cells ii jj -
          (pull3 params cells ii jj + pull6 params cells ii jj + pull7 params cells ii jj) := by
      simp only [collide]
      linear_combination params.omega * hnx + params.omega * hmx
    have hnumy : collide params.omega (pull2 params cells ii jj)
          (d_equ2 (local_density params cells ii jj) (u_x params cells ii jj) (u_y params cells ii jj)) +
        collide params.omega (pull5 params cells ii jj)
          (d_equ5 (local_density params cells ii jj) (u_x params cells ii jj) (u_y params cells ii jj)) +
        collide params.omega (pull6 params cells ii jj)
          (d_equ6 (local_density params cells ii jj) (u_x params cells ii jj) (u_y params cells ii jj)) -
        (collide params.omega (pull4 params cells ii jj)
          (d_equ4 (local_density params cells ii jj) (u_x params cells ii jj) (u_y params cells ii jj)) +
        collide params.omega (pull7 params cells ii jj)
          (d_equ7 (local_density params cells ii jj) (u_x params cells ii jj) (u_y params cells ii jj)) +
        collide params.omega (pull8 params cells ii jj)
          (d_equ8 (local_density params cells ii jj) (u_x params cells ii jj) (u_y params cells ii jj))) =
        pull2 params cells ii jj + pull5 params cells ii jj + pull6 params cells ii jj -
          (pull4 params cells ii jj + pull7 params cells ii jj + pull8 params cells ii jj) := by
      simp only [collide]
      linear_combination params.omega * hny + params.omega * hmy
    constructor
    · rw [snap_u_x, hsum, v1, v5, v8, v3, v6, v7, hnumx, u_x]
    · rw [snap_u_y, hsum, v2, v5, v6, v4, v7, v8, hnumy, u_y]

/-- Summing over the backward-wrapped index is summing over the range:
`i ↦ (i = 0 ? n-1 : i-1)` permutes `0..n-1`. -/
lemma sum_wrap_prev (n : ℕ) (hn : 0 < n) (g : ℕ → ℚ) :
    ∑ i ∈ Finset.range n, g (if i = 0 then i + n - 1 else i - 1) =
      ∑ i ∈ Finset.range n, g i := by
  refine Finset.sum_nbij' (fun i => if i = 0 then i + n - 1 else i - 1)
    (fun i => (i + 1) % n) ?_ ?_ ?_ ?_ ?_
  · intro a ha
    simp only [Finset.mem_range] at ha ⊢
    split <;> omega
  · intro a ha
    simp only [Finset.mem_range]
    exact Nat.mod_lt _ hn
  · intro a ha
    simp only [Finset.mem_range] at ha
    dsimp only
    by_cases h0 : a = 0
    · rw [if_pos h0]
      subst h0
      have h1 : 0 + n - 1 + 1 = n := by omega
      rw [h1, Nat.mod_self]
    · rw [if_neg h0]
      have h1 : a - 1 + 1 = a := by omega
      rw [h1, Nat.mod_eq_of_lt ha]
  · intro a ha
    simp only [Finset.mem_range] at ha
    dsimp only
    by_cases h1 : a + 1 = n
    · have h2 : (a + 1) % n = 0 := by rw [h1, Nat.mod_self]
      rw [h2, if_pos rfl]
      omega
    · have h2 : (a + 1) % n = a + 1 := Nat.mod_eq_of_lt (by omega)
      rw [h2, if_neg (by omega)]
      omega
  · intro a _
    rfl

/-- Summing over the forward-wrapped index `(i+1) % n` is summing over the
range. -/
lemma sum_wrap_next (n : ℕ) (hn : 0 < n) (g : ℕ → ℚ) :
    ∑ i ∈ Finset.range n, g ((i + 1) % n) = ∑ i ∈ Finset.range n, g i := by
  refine Finset.sum_nbij' (fun i => (i + 1) % n)
    (fun i => if i = 0 then i + n - 1 else i - 1) ?_ ?_ ?_ ?_ ?_
  · intro a ha
    simp only [Finset.mem_range]
    exact Nat.mod_lt _ hn
  · intro a ha
    simp only [Finset.mem_range] at ha ⊢
    split <;> omega
  · intro a ha
    simp only [Finset.mem_range] at ha
    dsimp only
    by_cases h1 : a + 1 = n
    · have h2 : (a + 1) % n = 0 := by rw [h1, Nat.mod_self]
      rw [h2, if_pos rfl]
      omega
    · have h2 : (a + 1) % n = a + 1 := Nat.mod_eq_of_lt (by omega)
      rw [h2, if_neg (by omega)]
      omega
  · intro a ha
    simp only [Finset.mem_range] at ha
    dsimp only
    by_cases h0 : a = 0
    · rw [if_pos h0]
      subst h0
      have h1 : 0 + n - 1 + 1 = n := by omega
      rw [h1, Nat.mod_self]
    · rw [if_neg h0]
      have h1 : a - 1 + 1 = a := by omega
      rw [h1, Nat.mod_eq_of_lt ha]
  · intro a _
    rfl

lemma x_e_eq (params : t_param) (ii : ℕ) (hii : ii < params.nx) :
    x_e params ii = if ii = params.nx - 1 then 0 else ii + 1 := by
  unfold x_e
  by_cases h : ii = params.nx - 1
  · rw [if_pos h, h]
    have h1 : params.nx - 1 + 1 = params.nx := by omega
    rw [h1, Nat.mod_self]
  · rw [if_neg h]
    exact Nat.mod_eq_of_lt (by omega)

lemma y_n_eq (params : t_param) (jj : ℕ) (hjj : jj < params.ny) :
    y_n params jj = if jj = params.ny - 1 then 0 else jj + 1 := by
  unfold y_n
  by_cases h : jj = params.ny - 1
  · rw [if_pos h, h]
    have h1 : params.ny - 1 + 1 = params.ny := by omega
    rw [h1, Nat.mod_self]
  · rw [if_neg h]
    exact Nat.mod_eq_of_lt (by omega)

lemma x_w_eq (params : t_param) (ii : ℕ) :
    x_w params ii = if ii = 0 then params.nx - 1 else ii - 1 := by
  unfold x_w
  by_cases h : ii = 0 <;> simp [h]

lemma y_s_eq (params : t_param) (jj : ℕ) :
    y_s params jj = if jj = 0 then params.ny - 1 else jj - 1 := by
  unfold y_s
  by_cases h : jj = 0 <;> simp [h]

/-- Claim C2: for every obstacle cell, one streamCollide pass writes into
the scratch field at that cell the mirrored pulled values: scratch
direction 1 gets the pulled direction-3 value, 3 gets 1, 2 gets 4, 4 gets
2, 5 gets 7, 7 gets 5, 6 gets 8, and 8 gets 6. -/
theorem claim_C2_bounce_back (params : t_param) (sqrtf : ℚ → ℚ)
    (cells tmp_cells : t_speed) (obstacles : ℕ → Bool) (ii jj : ℕ)
    (hii : ii < params.nx) (hjj : jj < params.ny)
    (hob : obstacles (ii + jj * params.nx) = true) :
    (streamCollide params sqrtf cells tmp_cells obstacles).1.speeds1 (ii + jj * params.nx) =
      pull3 params cells ii jj ∧
    (streamCollide params sqrtf cells tmp_cells obstacles).1.speeds3 (ii + jj * params.nx) =
      pull1 params cells ii jj ∧
    (streamCollide params sqrtf cells tmp_cells obstacles).1.speeds2 (ii + jj * params.nx) =
      pull4 params cells ii jj ∧
    (streamCollide params sqrtf cells tmp_cells obstacles).1.speeds4 (ii + jj * params.nx) =
      pull2 params cells ii jj ∧
    (streamCollide params sqrtf cells tmp_cells obstacles).1.speeds5 (ii + jj * params.nx) =
      pull7 params cells ii jj ∧
    (streamCollide params sqrtf cells tmp_cells obstacles).1.speeds7 (ii + jj * params.nx) =
      pull5 params cells ii jj ∧
    (streamCollide params sqrtf cells tmp_cells obstacles).1.speeds6 (ii + jj * params.nx) =
      pull8 params cells ii jj ∧
    (streamCollide params sqrtf cells tmp_cells obstacles).1.speeds8 (ii + jj * params.nx) =
      pull6 params cells ii jj := by
  obtain ⟨a0, a1, a2, a3, a4, a5, a6, a7, a8⟩ :=
    streamCollide_obst params sqrtf cells tmp_cells obstacles ii jj hii hjj hob
  obtain ⟨b1, b2, b3, b4, b5, b6, b7, b8, b0⟩ :=
    streamCollideCell_obst params sqrtf cells obstacles (tmp_cells, 0, 0) ii jj hob
  exact ⟨a1.trans b1, a3.trans b3, a2.trans b2, a4.trans b4, a5.trans b5,
    a7.trans b7, a6.trans b6, a8.trans b8⟩

/-- Claim C4: neighbour addressing in streamCollide is truly periodic in
both axes: the pull for each direction reads the wrapped coordinate, a
coordinate 0 wraps its previous neighbour to size-1 and a coordinate
size-1 wraps its next neighbour to 0; in particular cell (0, y) pulls its
west-side value from (nx-1, y) and cell (x, 0) pulls its south-side value
from (x, ny-1). -/
theorem claim_C4_periodic_wrap (params : t_param) (cells : t_speed) (ii jj : ℕ)
    (hii : ii < params.nx) (hjj : jj < params.ny) :
    (pull1 params cells ii jj =
      cells.speeds1 ((if ii = 0 then params.nx - 1 else ii - 1) + jj * params.nx)) ∧
    (pull2 params cells ii jj =
      cells.speeds2 (ii + (if jj = 0 then params.ny - 1 else jj - 1) * params.nx)) ∧
    (pull3 params cells ii jj =
      cells.speeds3 ((if ii = params.nx - 1 then 0 else ii + 1) + jj * params.nx)) ∧
    (pull4 params cells ii jj =
      cells.speeds4 (ii + (if jj = params.ny - 1 then 0 else jj + 1) * params.nx)) ∧
    (pull5 params cells ii jj =
      cells.speeds5 ((if ii = 0 then params.nx - 1 else ii - 1) +
        (if jj = 0 then params.ny - 1 else jj - 1) * params.nx)) ∧
    (pull6 params cells ii jj =
      cells.speeds6 ((if ii = params.nx - 1 then 0 else ii + 1) +
        (if jj = 0 then params.ny - 1 else jj - 1) * params.nx)) ∧
    (pull7 params cells ii jj =
      cells.speeds7 ((if ii = params.nx - 1 then 0 else ii + 1) +
        (if jj = params.ny - 1 then 0 else jj + 1) * params.nx)) ∧
    (pull8 params cells ii jj =
      cells.speeds8 ((if ii = 0 then params.nx - 1 else ii - 1) +
        (if jj = params.ny - 1 then 0 else jj + 1) * params.nx)) ∧
    (pull1 params cells 0 jj = cells.speeds1 (params.nx - 1 + jj * params.nx)) ∧
    (pull2 params cells ii 0 = cells.speeds2 (ii + (params.ny - 1) * params.nx)) := by
  refine ⟨?_, ?_, ?_, ?_, ?_, ?_, ?_, ?_, ?_, ?_⟩
  · rw [pull1, x_w_eq]
  · rw [pull2, y_s_eq]
  · rw [pull3, x_e_eq params ii hii]
  · rw [pull4, y_n_eq params jj hjj]
  · rw [pull5, x_w_eq, y_s_eq]
  · rw [pull6, x_e_eq params ii hii, y_s_eq]
  · rw [pull7, x_e_eq params ii hii, y_n_eq params jj hjj]
  · rw [pull8, x_w_eq, y_n_eq params jj hjj]
  · rw [pull1, x_w_eq, if_pos rfl]
  · rw [pull2, y_s_eq, if_pos rfl]

/-- Claim C8 model evidence: when every cell is an obstacle, the full pass
counts zero free cells and accumulates zero speed, so the returned value is
the division `0.0f / 0`.  The C code has no special-case branch for
`tot_cells == 0`: in IEEE float that division is NaN (in this exact ℚ model
division by zero is the junk value 0). -/
theorem claim_C8_all_obstacles (params : t_param) (sqrtf : ℚ → ℚ)
    (cells tmp_cells : t_speed) (obstacles : ℕ → Bool)
    (hall : ∀ idx, obstacles idx = true) :
    (timestep params sqrtf cells tmp_cells obstacles).2.2 = 0 ∧
    (timestep params sqrtf cells tmp_cells obstacles).2.1 = 0 := by
  obtain ⟨h1, h2⟩ := streamCollide_totals params sqrtf
    (accelerate_flow params cells obstacles) tmp_cells obstacles
  constructor
  · rw [timestep, h2]
    exact Finset.sum_eq_zero fun jj _ => Finset.sum_eq_zero fun ii _ => by
      simp [hall (ii + jj * params.nx)]
  · rw [timestep, h1]
    exact Finset.sum_eq_zero fun jj _ => Finset.sum_eq_zero fun ii _ => by
      simp [hall (ii + jj * params.nx)]

/-- Claim C9: the obstacle branch of the pass writes scratch directions 1-8
but never direction 0, so an obstacle cell's rest-direction scratch entry
keeps its pre-pass value; at a fluid cell the rest value is read from the
current field and the relaxed value is written to scratch. -/
theorem claim_C9_rest_direction (params : t_param) (sqrtf : ℚ → ℚ)
    (cells tmp_cells : t_speed) (obstacles : ℕ → Bool) (ii jj : ℕ)
    (hii : ii < params.nx) (hjj : jj < params.ny) :
    (obstacles (ii + jj * params.nx) = true →
      (streamCollide params sqrtf cells tmp_cells obstacles).1.speeds0 (ii + jj * params.nx) =
        tmp_cells.speeds0 (ii + jj * params.nx)) ∧
    (obstacles (ii + jj * params.nx) = false →
      (streamCollide params sqrtf cells tmp_cells obstacles).1.speeds0 (ii + jj * params.nx) =
        cells.speeds0 (ii + jj * params.nx) + params.omega *
          (d_equ0 (local_density params cells ii jj) (u_x params cells ii jj)
            (u_y params cells ii jj) - cells.speeds0 (ii + jj * params.nx))) := by
  constructor
  · intro hob
    have hA := streamCollide_obst params sqrtf cells tmp_cells obstacles ii jj hii hjj hob
    have hS := streamCollideCell_obst params sqrtf cells obstacles (tmp_cells, 0, 0) ii jj hob
    exact hA.1.trans hS.2.2.2.2.2.2.2.2
  · intro hob
    have v := (streamCollide_fluid_vals params sqrtf cells tmp_cells obstacles
      ii jj hii hjj hob).1
    rw [v]
    rfl

/-- Claim C10: accelerate_flow leaves every cell's local density (the sum of
its nine distribution values) unchanged in exact arithmetic, and therefore
leaves the grid's total density invariant. -/
theorem claim_C10_accelerate_mass (params : t_param) (cells : t_speed)
    (obstacles : ℕ → Bool) :
    (∀ idx, snap_density (accelerate_flow params cells obstacles) idx =
      snap_density cells idx) ∧
    total_density params (accelerate_flow params cells obstacles) =
      total_density params cells := by
  have hcell : ∀ idx, snap_density (accelerate_flow params cells obstacles) idx =
      snap_density cells idx := by
    intro idx
    by_cases hrow : ∃ i, i < params.nx ∧ idx = i + (params.ny - 2) * params.nx
    · obtain ⟨i, hi, rfl⟩ := hrow
      obtain ⟨a0, a1, a2, a3, a4, a5, a6, a7, a8⟩ :=
        accelerate_at params cells obstacles i hi
      rw [snap_density, a0, a1, a2, a3, a4, a5, a6, a7, a8]
      unfold accelerate_cell
      simp only []
      split
      · simp only [Function.update_same]
        rw [snap_density]
        ring
      · rw [snap_density]
    · push_neg at hrow
      obtain ⟨a0, a1, a2, a3, a4, a5, a6, a7, a8⟩ :=
        accelerate_off params cells obstacles idx
          (fun i hi h => hrow i hi h)
      rw [snap_density, a0, a1, a2, a3, a4, a5, a6, a7, a8, snap_density]
  exact ⟨hcell, Finset.sum_congr rfl fun jj _ =>
    Finset.sum_congr rfl fun ii _ => hcell _⟩

/-- Claim C1: at every fluid cell with nonzero pulled local density a
streamCollide pass writes, for each direction i, the relaxed value
`f_i + omega*(f_eq_i - f_i)` to scratch, with
`f_eq_i = w_i * localDensity * (1 + 3(e_i.u) + 4.5(e_i.u)^2 - 1.5(u_x^2+u_y^2))`,
weight 4/9 for direction 0, 1/9 for the axes and 1/36 for the diagonals,
and `u_x`, `u_y` the pulled momentum over the pulled local density. -/
theorem claim_C1_bgk_relaxation (params : t_param) (sqrtf : ℚ → ℚ)
    (cells tmp_cells : t_speed) (obstacles : ℕ → Bool) (ii jj : ℕ)
    (hii : ii < params.nx) (hjj : jj < params.ny)
    (hob : obstacles (ii + jj * params.nx) = false)
    (hld : local_density params cells ii jj ≠ 0) :
    (streamCollide params sqrtf cells tmp_cells obstacles).1.speeds0 (ii + jj * params.nx) =
      pull0 params cells ii jj + params.omega *
        (4 / 9 * local_density params cells ii jj *
          (1 + 3 * (0 : ℚ) + 9 / 2 * ((0 : ℚ) * 0) -
            3 / 2 * (u_x params cells ii jj * u_x params cells ii jj +
              u_y params cells ii jj * u_y params cells ii jj)) -
          pull0 params cells ii jj) ∧
    (streamCollide params sqrtf cells tmp_cells obstacles).1.speeds1 (ii + jj * params.nx) =
      pull1 params cells ii jj + params.omega *
        (1 / 9 * local_density params cells ii jj *
          (1 + 3 * u_x params cells ii jj +
            9 / 2 * (u_x params cells ii jj * u_x params cells ii jj) -
            3 / 2 * (u_x params cells ii jj * u_x params cells ii jj +
              u_y params cells ii jj * u_y params cells ii jj)) -
          pull1 params cells ii jj) ∧
    (streamCollide params sqrtf cells tmp_cells obstacles).1.speeds2 (ii + jj * params.nx) =
      pull2 params cells ii jj + params.omega *
        (1 / 9 * local_density params cells ii jj *
          (1 + 3 * u_y params cells ii jj +
            9 / 2 * (u_y params cells ii jj * u_y params cells ii jj) -
            3 / 2 * (u_x params cells ii jj * u_x params cells ii jj +
              u_y params cells ii jj * u_y params cells ii jj)) -
          pull2 params cells ii jj) ∧
    (streamCollide params sqrtf cells tmp_cells obstacles).1.speeds3 (ii + jj * params.nx) =
      pull3 params cells ii jj + params.omega *
        (1 / 9 * local_density params cells ii jj *
          (1 + 3 * (-u_x params cells ii jj) +
            9 / 2 * (-u_x params cells ii jj * -u_x params cells ii jj) -
            3 / 2 * (u_x params cells ii jj * u_x params cells ii jj +
              u_y params cells ii jj * u_y params cells ii jj)) -
          pull3 params cells ii jj) ∧
    (streamCollide params sqrtf cells tmp_cells obstacles).1.speeds4 (ii + jj * params.nx) =
      pull4 params cells ii jj + params.omega *
        (1 / 9 * local_density params cells ii jj *
          (1 + 3 * (-u_y params cells ii jj) +
            9 / 2 * (-u_y params cells ii jj * -u_y params cells ii jj) -
            3 / 2 * (u_x params cells ii jj * u_x params cells ii jj +
              u_y params cells ii jj * u_y params cells ii jj)) -
          pull4 params cells ii jj) ∧
    (streamCollide params sqrtf cells tmp_cells obstacles).1.speeds5 (ii + jj * params.nx) =
      pull5 params cells ii jj + params.omega *
        (1 / 36 * local_density params cells ii jj *
          (1 + 3 * (u_x params cells ii jj + u_y params cells ii jj) +
            9 / 2 * ((u_x params cells ii jj + u_y params cells ii jj) *
              (u_x params cells ii jj + u_y params cells ii jj)) -
            3 / 2 * (u_x params cells ii jj * u_x params cells ii jj +
              u_y params cells ii jj * u_y params cells ii jj)) -
          pull5 params cells ii jj) ∧
    (streamCollide params sqrtf cells tmp_cells obstacles).1.speeds6 (ii + jj * params.nx) =
      pull6 params cells ii jj + params.omega *
        (1 / 36 * local_density params cells ii jj *
          (1 + 3 * (-u_x params cells ii jj + u_y params cells ii jj) +
            9 / 2 * ((-u_x params cells ii jj + u_y params cells ii jj) *
              (-u_x params cells ii jj + u_y params cells ii jj)) -
            3 / 2 * (u_x params cells ii jj * u_x params cells ii jj +
              u_y params cells ii jj * u_y params cells ii jj)) -
          pull6 params cells ii jj) ∧
    (streamCollide params sqrtf cells tmp_cells obstacles).1.speeds7 (ii + jj * params.nx) =
      pull7 params cells ii jj + params.omega *
        (1 / 36 * local_density params cells ii jj *
          (1 + 3 * (-u_x params cells ii jj - u_y params cells ii jj) +
            9 / 2 * ((-u_x params cells ii jj - u_y params cells ii jj) *
              (-u_x params cells ii jj - u_y params cells ii jj)) -
            3 / 2 * (u_x params cells ii jj * u_x params cells ii jj +
              u_y params cells ii jj * u_y params cells ii jj)) -
          pull7 params cells ii jj) ∧
    (streamCollide params sqrtf cells tmp_cells obstacles).1.speeds8 (ii + jj * params.nx) =
      pull8 params cells ii jj + params.omega *
        (1 / 36 * local_density params cells ii jj *
          (1 + 3 * (u_x params cells ii jj - u_y params cells ii jj) +
            9 / 2 * ((u_x params cells ii jj - u_y params cells ii jj) *
              (u_x params cells ii jj - u_y params cells ii jj)) -
            3 / 2 * (u_x params cells ii jj * u_x params cells ii jj +
              u_y params cells ii jj * u_y params cells ii jj)) -
          pull8 params cells ii jj) := by
  obtain ⟨v0, v1, v2, v3, v4, v5, v6, v7, v8⟩ :=
    streamCollide_fluid_vals params sqrtf cells tmp_cells obstacles ii jj hii hjj hob
  refine ⟨?_, ?_, ?_, ?_, ?_, ?_, ?_, ?_, ?_⟩
  · rw [v0]; simp only [collide, d_equ0, w0, c_sq_inv]; ring
  · rw [v1]; simp only [collide, d_equ1, w1, c_sq_inv]; ring
  · rw [v2]; simp only [collide, d_equ2, w1, c_sq_inv]; ring
  · rw [v3]; simp only [collide, d_equ3, w1, c_sq_inv]; ring
  · rw [v4]; simp only [collide, d_equ4, w1, c_sq_inv]; ring
  · rw [v5]; simp only [collide, d_equ5, w2, c_sq_inv]; ring
  · rw [v6]; simp only [collide, d_equ6, w2, c_sq_inv]; ring
  · rw [v7]; simp only [collide, d_equ7, w2, c_sq_inv]; ring
  · rw [v8]; simp only [collide, d_equ8, w2, c_sq_inv]; ring

/-- Claim C3: accelerate_flow modifies only row `y = ny-2`.  A non-obstacle
cell of that row whose guards `f3-w1 > 0`, `f6-w2 > 0`, `f7-w2 > 0` hold
gains `w1` on direction 1 and `w2` on directions 5 and 8, loses `w1` on
direction 3 and `w2` on directions 6 and 7, and keeps directions 0, 2, 4;
a cell failing the guard or holding an obstacle, and every cell outside the
row, is left completely unchanged. -/
theorem claim_C3_accelerate_row (params : t_param) (cells : t_speed)
    (obstacles : ℕ → Bool) (ii : ℕ) (hny : 2 ≤ params.ny) (hii : ii < params.nx) :
    (obstacles (ii + (params.ny - 2) * params.nx) = false →
      cells.speeds3 (ii + (params.ny - 2) * params.nx) - params.density * params.accel / 9 > 0 →
      cells.speeds6 (ii + (params.ny - 2) * params.nx) - params.density * params.accel / 36 > 0 →
      cells.speeds7 (ii + (params.ny - 2) * params.nx) - params.density * params.accel / 36 > 0 →
      ((accelerate_flow params cells obstacles).speeds1 (ii + (params.ny - 2) * params.nx) =
        cells.speeds1 (ii + (params.ny - 2) * params.nx) + params.density * params.accel / 9 ∧
      (accelerate_flow params cells obstacles).speeds5 (ii + (params.ny - 2) * params.nx) =
        cells.speeds5 (ii + (params.ny - 2) * params.nx) + params.density * params.accel / 36 ∧
      (accelerate_flow params cells obstacles).speeds8 (ii + (params.ny - 2) * params.nx) =
        cells.speeds8 (ii + (params.ny - 2) * params.nx) + params.density * params.accel / 36 ∧
      (accelerate_flow params cells obstacles).speeds3 (ii + (params.ny - 2) * params.nx) =
        cells.speeds3 (ii + (params.ny - 2) * params.nx) - params.density * params.accel / 9 ∧
      (accelerate_flow params cells obstacles).speeds6 (ii + (params.ny - 2) * params.nx) =
        cells.speeds6 (ii + (params.ny - 2) * params.nx) - params.density * params.accel / 36 ∧
      (accelerate_flow params cells obstacles).speeds7 (ii + (params.ny - 2) * params.nx) =
        cells.speeds7 (ii + (params.ny - 2) * params.nx) - params.density * params.accel / 36 ∧
      (accelerate_flow params cells obstacles).speeds0 (ii + (params.ny - 2) * params.nx) =
        cells.speeds0 (ii + (params.ny - 2) * params.nx) ∧
      (accelerate_flow params cells obstacles).speeds2 (ii + (params.ny - 2) * params.nx) =
        cells.speeds2 (ii + (params.ny - 2) * params.nx) ∧
      (accelerate_flow params cells obstacles).speeds4 (ii + (params.ny - 2) * params.nx) =
        cells.speeds4 (ii + (params.ny - 2) * params.nx))) ∧
    ((obstacles (ii + (params.ny - 2) * params.nx) = true ∨
      ¬(cells.speeds3 (ii + (params.ny - 2) * params.nx) - params.density * params.accel / 9 > 0 ∧
        cells.speeds6 (ii + (params.ny - 2) * params.nx) - params.density * params.accel / 36 > 0 ∧
        cells.speeds7 (ii + (params.ny - 2) * params.nx) - params.density * params.accel / 36 > 0)) →
      agreeAt (accelerate_flow params cells obstacles) cells (ii + (params.ny - 2) * params.nx)) ∧
    (∀ idx, (∀ i, i < params.nx → idx ≠ i + (params.ny - 2) * params.nx) →
      agreeAt (accelerate_flow params cells obstacles) cells idx) := by
  obtain ⟨a0, a1, a2, a3, a4, a5, a6, a7, a8⟩ :=
    accelerate_at params cells obstacles ii hii
  refine ⟨?_, ?_, fun idx h => accelerate_off params cells obstacles idx h⟩
  · intro hob h3 h6 h7
    have hg : obstacles (ii + (params.ny - 2) * params.nx) = false ∧
        cells.speeds3 (ii + (params.ny - 2) * params.nx) - acc_w1 params > 0 ∧
        cells.speeds6 (ii + (params.ny - 2) * params.nx) - acc_w2 params > 0 ∧
        cells.speeds7 (ii + (params.ny - 2) * params.nx) - acc_w2 params > 0 :=
      ⟨hob, h3, h6, h7⟩
    have hx : accelerate_cell params obstacles cells ii =
        { cells with
          speeds1 := Function.update cells.speeds1 (ii + (params.ny - 2) * params.nx)
            (cells.speeds1 (ii + (params.ny - 2) * params.nx) + acc_w1 params)
          speeds5 := Function.update cells.speeds5 (ii + (params.ny - 2) * params.nx)
            (cells.speeds5 (ii + (params.ny - 2) * params.nx) + acc_w2 params)
          speeds8 := Function.update cells.speeds8 (ii + (params.ny - 2) * params.nx)
            (cells.speeds8 (ii + (params.ny - 2) * params.nx) + acc_w2 params)
          speeds3 := Function.update cells.speeds3 (ii + (params.ny - 2) * params.nx)
            (cells.speeds3 (ii + (params.ny - 2) * params.nx) - acc_w1 params)
          speeds6 := Function.update cells.speeds6 (ii + (params.ny - 2) * params.nx)
            (cells.speeds6 (ii + (params.ny - 2) * params.nx) - acc_w2 params)
          speeds7 := Function.update cells.speeds7 (ii + (params.ny - 2) * params.nx)
            (cells.speeds7 (ii + (params.ny - 2) * params.nx) - acc_w2 params) } := by
      unfold accelerate_cell
      simp only []
      rw [if_pos hg]
    refine ⟨?_, ?_, ?_, ?_, ?_, ?_, ?_, ?_, ?_⟩
    · rw [a1, hx]; simp [Function.update_same, acc_w1]
    · rw [a5, hx]; simp [Function.update_same, acc_w2]
    · rw [a8, hx]; simp [Function.update_same, acc_w2]
    · rw [a3, hx]; simp [Function.update_same, acc_w1]
    · rw [a6, hx]; simp [Function.update_same, acc_w2]
    · rw [a7, hx]; simp [Function.update_same, acc_w2]
    · rw [a0, hx]
    · rw [a2, hx]
    · rw [a4, hx]
  · intro hfail
    have hng : ¬(obstacles (ii + (params.ny - 2) * params.nx) = false ∧
        cells.speeds3 (ii + (params.ny - 2) * params.nx) - acc_w1 params > 0 ∧
        cells.speeds6 (ii + (params.ny - 2) * params.nx) - acc_w2 params > 0 ∧
        cells.speeds7 (ii + (params.ny - 2) * params.nx) - acc_w2 params > 0) := by
      rcases hfail with hob | hg
      · intro hc
        rw [hob] at hc
        exact Bool.true_eq_false ▸ hc.1
      · intro hc
        exact hg ⟨hc.2.1, hc.2.2.1, hc.2.2.2⟩
    have hx : accelerate_cell params obstacles cells ii = cells := by
      unfold accelerate_cell
      simp only []
      rw [if_neg hng]
    rw [hx] at a0 a1 a2 a3 a4 a5 a6 a7 a8
    exact ⟨a0, a1, a2, a3, a4, a5, a6, a7, a8⟩

lemma init_local_density (params : t_param) (ii jj : ℕ) :
    local_density params (initialise_field params) ii jj = params.density := by
  simp only [local_density, pull0, pull1, pull2, pull3, pull4, pull5, pull6, pull7, pull8,
    initialise_field]
  ring

lemma init_u_x (params : t_param) (ii jj : ℕ) :
    u_x params (initialise_field params) ii jj = 0 := by
  simp only [u_x, pull1, pull3, pull5, pull6, pull7, pull8, initialise_field]
  rw [sub_self, zero_div]

lemma init_u_y (params : t_param) (ii jj : ℕ) :
    u_y params (initialise_field params) ii jj = 0 := by
  simp only [u_y, pull2, pull4, pull5, pull6, pull7, pull8, initialise_field]
  rw [sub_self, zero_div]

/-- Claim C6: the uniform zero-velocity equilibrium field is a fixed point:
one timestep with `accel = 0` and no obstacles leaves every distribution
value of every grid cell equal to its initial value and returns mean
velocity 0. -/
theorem claim_C6_equilibrium_fixed_point (params : t_param) (sqrtf : ℚ → ℚ)
    (tmp_cells : t_speed) (obstacles : ℕ → Bool)
    (hacc : params.accel = 0) (hobs : ∀ idx, obstacles idx = false)
    (hsq : sqrtf 0 = 0) (hnx : 0 < params.nx) (hny : 0 < params.ny) :
    (∀ ii jj, ii < params.nx → jj < params.ny →
      ((timestep params sqrtf (initialise_field params) tmp_cells obstacles).1.speeds0
          (ii + jj * params.nx) = (initialise_field params).speeds0 (ii + jj * params.nx) ∧
       (timestep params sqrtf (initialise_field params) tmp_cells obstacles).1.speeds1
          (ii + jj * params.nx) = (initialise_field params).speeds1 (ii + jj * params.nx) ∧
       (timestep params sqrtf (initialise_field params) tmp_cells obstacles).1.speeds2
          (ii + jj * params.nx) = (initialise_field params).speeds2 (ii + jj * params.nx) ∧
       (timestep params sqrtf (initialise_field params) tmp_cells obstacles).1.speeds3
          (ii + jj * params.nx) = (initialise_field params).speeds3 (ii + jj * params.nx) ∧
       (timestep params sqrtf (initialise_field params) tmp_cells obstacles).1.speeds4
          (ii + jj * params.nx) = (initialise_field params).speeds4 (ii + jj * params.nx) ∧
       (timestep params sqrtf (initialise_field params) tmp_cells obstacles).1.speeds5
          (ii + jj * params.nx) = (initialise_field params).speeds5 (ii + jj * params.nx) ∧
       (timestep params sqrtf (initialise_field params) tmp_cells obstacles).1.speeds6
          (ii + jj * params.nx) = (initialise_field params).speeds6 (ii + jj * params.nx) ∧
       (timestep params sqrtf (initialise_field params) tmp_cells obstacles).1.speeds7
          (ii + jj * params.nx) = (initialise_field params).speeds7 (ii + jj * params.nx) ∧
       (timestep params sqrtf (initialise_field params) tmp_cells obstacles).1.speeds8
          (ii + jj * params.nx) = (initialise_field params).speeds8 (ii + jj * params.nx))) ∧
    timestep_ret params sqrtf (initialise_field params) tmp_cells obstacles = 0 := by
  have hid := accelerate_flow_accel_zero params (initialise_field params) obstacles hacc
  constructor
  · intro ii jj hii hjj
    obtain ⟨v0, v1, v2, v3, v4, v5, v6, v7, v8⟩ :=
      streamCollide_fluid_vals params sqrtf (initialise_field params) tmp_cells obstacles
        ii jj hii hjj (hobs _)
    rw [timestep, hid]
    rw [init_local_density, init_u_x, init_u_y] at v0 v1 v2 v3 v4 v5 v6 v7 v8
    refine ⟨?_, ?_, ?_, ?_, ?_, ?_, ?_, ?_, ?_⟩
    · rw [v0]
      simp only [collide, d_equ0, w0, c_sq_inv, pull0, initialise_field]
      ring
    · rw [v1]
      simp only [collide, d_equ1, w1, c_sq_inv, pull1, initialise_field]
      ring
    · rw [v2]
      simp only [collide, d_equ2, w1, c_sq_inv, pull2, initialise_field]
      ring
    · rw [v3]
      simp only [collide, d_equ3, w1, c_sq_inv, pull3, initialise_field]
      ring
    · rw [v4]
      simp only [collide, d_equ4, w1, c_sq_inv, pull4, initialise_field]
      ring
    · rw [v5]
      simp only [collide, d_equ5, w2, c_sq_inv, pull5, initialise_field]
      ring
    · rw [v6]
      simp only [collide, d_equ6, w2, c_sq_inv, pull6, initialise_field]
      ring
    · rw [v7]
      simp only [collide, d_equ7, w2, c_sq_inv, pull7, initialise_field]
      ring
    · rw [v8]
      simp only [collide, d_equ8, w2, c_sq_inv, pull8, initialise_field]
      ring
  · obtain ⟨h1, _⟩ := streamCollide_totals params sqrtf (initialise_field params)
      tmp_cells obstacles
    have hzero : (streamCollide params sqrtf (initialise_field params) tmp_cells
        obstacles).2.1 = 0 := by
      rw [h1]
      refine Finset.sum_eq_zero fun jj _ => Finset.sum_eq_zero fun ii _ => ?_
      rw [if_pos (hobs _), init_u_x, init_u_y]
      simpa using hsq
    rw [timestep_ret, timestep, hid, hzero, zero_div]

/-- Claim C7: the independent diagnostic av_velocity applied to the scratch
field produced by one streamCollide pass equals the mean-velocity value
returned by that same pass (exactly, over ℚ), because the BGK collision
preserves each fluid cell's local density and momentum. -/
theorem claim_C7_diagnostic_agreement (params : t_param) (sqrtf : ℚ → ℚ)
    (cells tmp_cells : t_speed) (obstacles : ℕ → Bool)
    (hfree : ∃ ii jj, ii < params.nx ∧ jj < params.ny ∧
      obstacles (ii + jj * params.nx) = false) :
    av_velocity params sqrtf (streamCollide params sqrtf cells tmp_cells obstacles).1
        obstacles =
      (streamCollide params sqrtf cells tmp_cells obstacles).2.1 /
        ((streamCollide params sqrtf cells tmp_cells obstacles).2.2 : ℚ) := by
  obtain ⟨h1, h2⟩ := streamCollide_totals params sqrtf cells tmp_cells obstacles
  rw [av_velocity, h1, h2]
  congr 1
  refine Finset.sum_congr rfl fun jj hjj => Finset.sum_congr rfl fun ii hii => ?_
  rw [Finset.mem_range] at hjj hii
  by_cases hob : obstacles (ii + jj * params.nx) = false
  · rw [if_pos hob, if_pos hob]
    obtain ⟨hx, hy⟩ := snap_velocity_streamCollide params sqrtf cells tmp_cells obstacles
      ii jj hii hjj hob
    rw [hx, hy]
  · rw [if_neg hob, if_neg hob]

/-- Claim C5: for a grid with zero obstacles and `accel = 0`, the total
density after one full timestep (accelerate plus streamCollide) equals the
total density before, exactly over ℚ, for any grid size at least 2x2. -/
theorem claim_C5_total_density_conserved (params : t_param) (sqrtf : ℚ → ℚ)
    (cells tmp_cells : t_speed) (obstacles : ℕ → Bool)
    (hacc : params.accel = 0) (hobs : ∀ idx, obstacles idx = false)
    (hnx : 2 ≤ params.nx) (hny : 2 ≤ params.ny) :
    total_density params (timestep params sqrtf cells tmp_cells obstacles).1 =
      total_density params cells := by
  have hid := accelerate_flow_accel_zero params cells obstacles hacc
  have hnx0 : 0 < params.nx := by omega
  have hny0 : 0 < params.ny := by omega
  rw [timestep, hid]
  have step1 : total_density params
      (streamCollide params sqrtf cells tmp_cells obstacles).1 =
      ∑ jj ∈ Finset.range params.ny, ∑ ii ∈ Finset.range params.nx,
        local_density params cells ii jj := by
    rw [total_density]
    refine Finset.sum_congr rfl fun jj hjj => Finset.sum_congr rfl fun ii hii => ?_
    rw [Finset.mem_range] at hjj hii
    exact snap_density_streamCollide params sqrtf cells tmp_cells obstacles
      ii jj hii hjj (hobs _)
  rw [step1]
  have E1 : (∑ jj ∈ Finset.range params.ny, ∑ ii ∈ Finset.range params.nx,
      pull1 params cells ii jj) =
      ∑ jj ∈ Finset.range params.ny, ∑ ii ∈ Finset.range params.nx,
        cells.speeds1 (ii + jj * params.nx) := by
    refine Finset.sum_congr rfl fun jj _ => ?_
    simp only [pull1, x_w]
    exact sum_wrap_prev params.nx hnx0 (fun i => cells.speeds1 (i + jj * params.nx))
  have E2 : (∑ jj ∈ Finset.range params.ny, ∑ ii ∈ Finset.range params.nx,
      pull2 params cells ii jj) =
      ∑ jj ∈ Finset.range params.ny, ∑ ii ∈ Finset.range params.nx,
        cells.speeds2 (ii + jj * params.nx) := by
    simp only [pull2, y_s]
    exact sum_wrap_prev params.ny hny0
      (fun j => ∑ ii ∈ Finset.range params.nx, cells.speeds2 (ii + j * params.nx))
  have E3 : (∑ jj ∈ Finset.range params.ny, ∑ ii ∈ Finset.range params.nx,
      pull3 params cells ii jj) =
      ∑ jj ∈ Finset.range params.ny, ∑ ii ∈ Finset.range params.nx,
        cells.speeds3 (ii + jj * params.nx) := by
    refine Finset.sum_congr rfl fun jj _ => ?_
    simp only [pull3, x_e]
    exact sum_wrap_next params.nx hnx0 (fun i => cells.speeds3 (i + jj * params.nx))
  have E4 : (∑ jj ∈ Finset.range params.ny, ∑ ii ∈ Finset.range params.nx,
      pull4 params cells ii jj) =
      ∑ jj ∈ Finset.range params.ny, ∑ ii ∈ Finset.range params.nx,
        cells.speeds4 (ii + jj * params.nx) := by
    simp only [pull4, y_n]
    exact sum_wrap_next params.ny hny0
      (fun j => ∑ ii ∈ Finset.range params.nx, cells.speeds4 (ii + j * params.nx))
  have E5 : (∑ jj ∈ Finset.range params.ny, ∑ ii ∈ Finset.range params.nx,
      pull5 params cells ii jj) =
      ∑ jj ∈ Finset.range params.ny, ∑ ii ∈ Finset.range params.nx,
        cells.speeds5 (ii + jj * params.nx) := by
    have inner : ∀ jj, (∑ ii ∈ Finset.range params.nx, pull5 params cells ii jj) =
        ∑ ii ∈ Finset.range params.nx, cells.speeds5 (ii + y_s params jj * params.nx) := by
      intro jj
      simp only [pull5, x_w]
      exact sum_wrap_prev params.nx hnx0
        (fun i => cells.speeds5 (i + y_s params jj * params.nx))
    rw [Finset.sum_congr rfl fun jj _ => inner jj]
    simp only [y_s]
    exact sum_wrap_prev params.ny hny0
      (fun j => ∑ ii ∈ Finset.range params.nx, cells.speeds5 (ii + j * params.nx))
  have E6 : (∑ jj ∈ Finset.range params.ny, ∑ ii ∈ Finset.range params.nx,
      pull6 params cells ii jj) =
      ∑ jj ∈ Finset.range params.ny, ∑ ii ∈ Finset.range params.nx,
        cells.speeds6 (ii + jj * params.nx) := by
    have inner : ∀ jj, (∑ ii ∈ Finset.range params.nx, pull6 params cells ii jj) =
        ∑ ii ∈ Finset.range params.nx, cells.speeds6 (ii + y_s params jj * params.nx) := by
      intro jj
      simp only [pull6, x_e]
      exact sum_wrap_next params.nx hnx0
        (fun i => cells.speeds6 (i + y_s params jj * params.nx))
    rw [Finset.sum_congr rfl fun jj _ => inner jj]
    simp only [y_s]
    exact sum_wrap_prev params.ny hny0
      (fun j => ∑ ii ∈ Finset.range params.nx, cells.speeds6 (ii + j * params.nx))
  have E7 : (∑ jj ∈ Finset.range params.ny, ∑ ii ∈ Finset.range params.nx,
      pull7 params cells ii jj) =
      ∑ jj ∈ Finset.range params.ny, ∑ ii ∈ Finset.range params.nx,
        cells.speeds7 (ii + jj * params.nx) := by
    have inner : ∀ jj, (∑ ii ∈ Finset.range params.nx, pull7 params cells ii jj) =
        ∑ ii ∈ Finset.range params.nx, cells.speeds7 (ii + y_n params jj * params.nx) := by
      intro jj
      simp only [pull7, x_e]
      exact sum_wrap_next params.nx hnx0
        (fun i => cells.speeds7 (i + y_n params jj * params.nx))
    rw [Finset.sum_congr rfl fun jj _ => inner jj]
    simp only [y_n]
    exact sum_wrap_next params.ny hny0
      (fun j => ∑ ii ∈ Finset.range params.nx, cells.speeds7 (ii + j * params.nx))
  have E8 : (∑ jj ∈ Finset.range params.ny, ∑ ii ∈ Finset.range params.nx,
      pull8 params cells ii jj) =
      ∑ jj ∈ Finset.range params.ny, ∑ ii ∈ Finset.range params.nx,
        cells.speeds8 (ii + jj * params.nx) := by
    have inner : ∀ jj, (∑ ii ∈ Finset.range params.nx, pull8 params cells ii jj) =
        ∑ ii ∈ Finset.range params.nx, cells.speeds8 (ii + y_n params jj * params.nx) := by
      intro jj
      simp only [pull8, x_w]
      exact sum_wrap_prev params.nx hnx0
        (fun i => cells.speeds8 (i + y_n params jj * params.nx))
    rw [Finset.sum_congr rfl fun jj _ => inner jj]
    simp only [y_n]
    exact sum_wrap_next params.ny hny0
      (fun j => ∑ ii ∈ Finset.range params.nx, cells.speeds8 (ii + j * params.nx))
  rw [total_density]
  simp only [local_density, snap_density, Finset.sum_add_distrib]
  rw [E1, E2, E3, E4, E5, E6, E7, E8]
  simp only [pull0]

/-- Witness for claim C1 at the fluid cell (0,0) of the concrete grid. -/
theorem claim_C1_bgk_relaxation_witness :
    ((0 : ℕ) < testParams.nx ∧ (0 : ℕ) < testParams.ny ∧
      noObstacles (0 + 0 * testParams.nx) = false ∧
      local_density testParams testCells 0 0 ≠ 0) ∧
    (streamCollide testParams testSqrt testCells testTmp noObstacles).1.speeds0
        (0 + 0 * testParams.nx) =
      pull0 testParams testCells 0 0 + testParams.omega *
        (4 / 9 * local_density testParams testCells 0 0 *
          (1 + 3 * (0 : ℚ) + 9 / 2 * ((0 : ℚ) * 0) -
            3 / 2 * (u_x testParams testCells 0 0 * u_x testParams testCells 0 0 +
              u_y testParams testCells 0 0 * u_y testParams testCells 0 0)) -
          pull0 testParams testCells 0 0) :=
  ⟨⟨by decide, by decide, rfl,
      by norm_num [local_density, pull0, pull1, pull2, pull3, pull4, pull5, pull6,
        pull7, pull8, testCells]⟩,
    (claim_C1_bgk_relaxation testParams testSqrt testCells testTmp noObstacles 0 0
      (by decide) (by decide) rfl
      (by norm_num [local_density, pull0, pull1, pull2, pull3, pull4, pull5, pull6,
        pull7, pull8, testCells])).1⟩

/-- Witness for claim C2 at the obstacle cell (0,0) of the concrete grid. -/
theorem claim_C2_bounce_back_witness :
    ((0 : ℕ) < testParams.nx ∧ (0 : ℕ) < testParams.ny ∧
      allObstacles (0 + 0 * testParams.nx) = true) ∧
    (streamCollide testParams testSqrt testCells testTmp allObstacles).1.speeds1
        (0 + 0 * testParams.nx) = pull3 testParams testCells 0 0 :=
  ⟨⟨by decide, by decide, rfl⟩,
    (claim_C2_bounce_back testParams testSqrt testCells testTmp allObstacles 0 0
      (by decide) (by decide) rfl).1⟩

/-- Witness for claim C3 at column 0 of the accelerated row of the concrete
grid (the guard holds there since `accel = 0` and all values are positive). -/
theorem claim_C3_accelerate_row_witness :
    ((2 : ℕ) ≤ testParams.ny ∧ (0 : ℕ) < testParams.nx) ∧
    (accelerate_flow testParams testCells noObstacles).speeds1
        (0 + (testParams.ny - 2) * testParams.nx) =
      testCells.speeds1 (0 + (testParams.ny - 2) * testParams.nx) +
        testParams.density * testParams.accel / 9 :=
  ⟨⟨by decide, by decide⟩,
    ((claim_C3_accelerate_row testParams testCells noObstacles 0
      (by decide) (by decide)).1 rfl (by norm_num [testCells, testParams])
      (by norm_num [testCells, testParams]) (by norm_num [testCells, testParams])).1⟩

/-- Witness for claim C4 at the corner cell (0,0) of the concrete grid,
where both wraps trigger. -/
theorem claim_C4_periodic_wrap_witness :
    ((0 : ℕ) < testParams.nx ∧ (0 : ℕ) < testParams.ny) ∧
    pull1 testParams testCells 0 0 =
      testCells.speeds1 ((if (0 : ℕ) = 0 then testParams.nx - 1 else 0 - 1) +
        0 * testParams.nx) :=
  ⟨⟨by decide, by decide⟩,
    (claim_C4_periodic_wrap testParams testCells 0 0 (by decide) (by decide)).1⟩

/-- Witness for claim C5 on the concrete obstacle-free 2x2 grid with
`accel = 0`. -/
theorem claim_C5_total_density_conserved_witness :
    (testParams.accel = 0 ∧ (2 : ℕ) ≤ testParams.nx ∧ (2 : ℕ) ≤ testParams.ny) ∧
    total_density testParams
        (timestep testParams testSqrt testCells testTmp noObstacles).1 =
      total_density testParams testCells :=
  ⟨⟨rfl, by decide, by decide⟩,
    claim_C5_total_density_conserved testParams testSqrt testCells testTmp noObstacles
      rfl (fun _ => rfl) (by decide) (by decide)⟩

/-- Witness for claim C6 on the concrete obstacle-free 2x2 grid. -/
theorem claim_C6_equilibrium_fixed_point_witness :
    (testParams.accel = 0 ∧ testSqrt 0 = 0 ∧ (0 : ℕ) < testParams.nx ∧
      (0 : ℕ) < testParams.ny) ∧
    timestep_ret testParams testSqrt (initialise_field testParams) testTmp noObstacles = 0 :=
  ⟨⟨rfl, rfl, by decide, by decide⟩,
    (claim_C6_equilibrium_fixed_point testParams testSqrt testTmp noObstacles
      rfl (fun _ => rfl) rfl (by decide) (by decide)).2⟩

/-- Witness for claim C7 on the concrete obstacle-free 2x2 grid. -/
theorem claim_C7_diagnostic_agreement_witness :
    ((0 : ℕ) < testParams.nx ∧ (0 : ℕ) < testParams.ny ∧
      noObstacles (0 + 0 * testParams.nx) = false) ∧
    av_velocity testParams testSqrt
        (streamCollide testParams testSqrt testCells testTmp noObstacles).1 noObstacles =
      (streamCollide testParams testSqrt testCells testTmp noObstacles).2.1 /
        ((streamCollide testParams testSqrt testCells testTmp noObstacles).2.2 : ℚ) :=
  ⟨⟨by decide, by decide, rfl⟩,
    claim_C7_diagnostic_agreement testParams testSqrt testCells testTmp noObstacles
      ⟨0, 0, by decide, by decide, rfl⟩⟩

/-- Witness for claim C8 on the concrete fully obstructed 2x2 grid. -/
theorem claim_C8_all_obstacles_witness :
    (allObstacles 0 = true) ∧
    (timestep testParams testSqrt testCells testTmp allObstacles).2.2 = 0 ∧
    (timestep testParams testSqrt testCells testTmp allObstacles).2.1 = 0 :=
  ⟨rfl, claim_C8_all_obstacles testParams testSqrt testCells testTmp allObstacles
    (fun _ => rfl)⟩

/-- Witness for claim C9 at the obstacle cell (0,0): the rest-direction
scratch entry keeps the pre-pass scratch value. -/
theorem claim_C9_rest_direction_witness :
    ((0 : ℕ) < testParams.nx ∧ (0 : ℕ) < testParams.ny ∧
      allObstacles (0 + 0 * testParams.nx) = true) ∧
    (streamCollide testParams testSqrt testCells testTmp allObstacles).1.speeds0
        (0 + 0 * testParams.nx) = testTmp.speeds0 (0 + 0 * testParams.nx) :=
  ⟨⟨by decide, by decide, rfl⟩,
    (claim_C9_rest_direction testParams testSqrt testCells testTmp allObstacles 0 0
      (by decide) (by decide)).1 rfl⟩

end D2Q9
